import Mathlib

/-!
Verification development for the Outbound-GenVoice post-call intelligence
pipeline (healthcare_rcm package): data model, prior-auth validator,
outcome classification, extractor fallback behaviour, and the status-bucketed
storage layer.  Python sources are embedded shallowly: dataclasses become
structures, machine dates become explicit year/month/day triples, fallible
operations return Option/Except, and the file-system is explicit state.
-/

namespace RCM

/-! ## Dates and datetimes

Python `datetime.date` / `datetime.datetime` values, with the pieces of their
stdlib interface the repository uses: `isoformat`, `fromisoformat` (on the
strings `isoformat` emits), `strftime("%Y%m%d_%H%M%S")`, ordinal day
arithmetic (`(a - b).days`), value comparison, and `timedelta` day addition. -/

structure Date where
  year : Nat
  month : Nat
  day : Nat
deriving DecidableEq, Repr

structure DateTime where
  year : Nat
  month : Nat
  day : Nat
  hour : Nat
  minute : Nat
  second : Nat
  microsecond : Nat
deriving DecidableEq, Repr

def digitChar : Nat → Char
  | 0 => '0'
  | 1 => '1'
  | 2 => '2'
  | 3 => '3'
  | 4 => '4'
  | 5 => '5'
  | 6 => '6'
  | 7 => '7'
  | 8 => '8'
  | _ => '9'

def digitVal (c : Char) : Option Nat :=
  if 48 ≤ c.toNat ∧ c.toNat ≤ 57 then some (c.toNat - 48) else none

def pad2 (n : Nat) : List Char := [digitChar (n / 10 % 10), digitChar (n % 10)]

def pad4 (n : Nat) : List Char :=
  [digitChar (n / 1000 % 10), digitChar (n / 100 % 10), digitChar (n / 10 % 10),
   digitChar (n % 10)]

def pad6 (n : Nat) : List Char :=
  [digitChar (n / 100000 % 10), digitChar (n / 10000 % 10), digitChar (n / 1000 % 10),
   digitChar (n / 100 % 10), digitChar (n / 10 % 10), digitChar (n % 10)]

def parse2 (a b : Char) : Option Nat := do
  let x ← digitVal a
  let y ← digitVal b
  pure (x * 10 + y)

def parse4 (a b c d : Char) : Option Nat := do
  let x ← digitVal a
  let y ← digitVal b
  let z ← digitVal c
  let w ← digitVal d
  pure (((x * 10 + y) * 10 + z) * 10 + w)

def parse6 (a b c d e f : Char) : Option Nat := do
  let x ← digitVal a
  let y ← digitVal b
  let z ← digitVal c
  let w ← digitVal d
  let v ← digitVal e
  let u ← digitVal f
  pure (((((x * 10 + y) * 10 + z) * 10 + w) * 10 + v) * 10 + u)

/-- Range constraints Python `date` values always satisfy (days-in-month
sharpening is irrelevant to the round-trip facts proved below). -/
def Date.valid (d : Date) : Prop :=
  1 ≤ d.year ∧ d.year ≤ 9999 ∧ 1 ≤ d.month ∧ d.month ≤ 12 ∧ 1 ≤ d.day ∧ d.day ≤ 31

instance (d : Date) : Decidable d.valid := by unfold Date.valid; infer_instance

def DateTime.valid (t : DateTime) : Prop :=
  1 ≤ t.year ∧ t.year ≤ 9999 ∧ 1 ≤ t.month ∧ t.month ≤ 12 ∧ 1 ≤ t.day ∧ t.day ≤ 31 ∧
  t.hour ≤ 23 ∧ t.minute ≤ 59 ∧ t.second ≤ 59 ∧ t.microsecond ≤ 999999

instance (t : DateTime) : Decidable t.valid := by unfold DateTime.valid; infer_instance

def Date.isoformat (d : Date) : String :=
  ⟨pad4 d.year ++ ('-' :: (pad2 d.month ++ ('-' :: pad2 d.day)))⟩

def Date.fromisoList : List Char → Option Date
  | [y1, y2, y3, y4, s1, m1, m2, s2, d1, d2] =>
    if s1 = '-' ∧ s2 = '-' then do
      let y ← parse4 y1 y2 y3 y4
      let m ← parse2 m1 m2
      let d ← parse2 d1 d2
      pure ⟨y, m, d⟩
    else none
  | _ => none

/-- Model of Python `date.fromisoformat` on the `YYYY-MM-DD` strings that
`date.isoformat` emits (the only shape the repository writes). -/
def Date.fromisoformat (s : String) : Option Date := Date.fromisoList s.data

def DateTime.isoformat (t : DateTime) : String :=
  ⟨pad4 t.year ++ ('-' :: (pad2 t.month ++ ('-' :: (pad2 t.day ++ ('T' :: (pad2 t.hour ++
    (':' :: (pad2 t.minute ++ (':' :: (pad2 t.second ++
    (if t.microsecond = 0 then [] else '.' :: pad6 t.microsecond)))))))))))⟩

def DateTime.fromisoTail (y m d h mi s : Nat) : List Char → Option DateTime
  | [] => some ⟨y, m, d, h, mi, s, 0⟩
  | [p, u1, u2, u3, u4, u5, u6] =>
    if p = '.' then do
      let u ← parse6 u1 u2 u3 u4 u5 u6
      pure ⟨y, m, d, h, mi, s, u⟩
    else none
  | _ => none

def DateTime.fromisoList : List Char → Option DateTime
  | y1 :: y2 :: y3 :: y4 :: s1 :: m1 :: m2 :: s2 :: d1 :: d2 :: t1 :: h1 :: h2 :: c1 ::
      n1 :: n2 :: c2 :: e1 :: e2 :: rest =>
    if s1 = '-' ∧ s2 = '-' ∧ t1 = 'T' ∧ c1 = ':' ∧ c2 = ':' then do
      let y ← parse4 y1 y2 y3 y4
      let m ← parse2 m1 m2
      let d ← parse2 d1 d2
      let h ← parse2 h1 h2
      let mi ← parse2 n1 n2
      let s ← parse2 e1 e2
      DateTime.fromisoTail y m d h mi s rest
    else none
  | _ => none

/-- Model of Python `datetime.fromisoformat` on the strings
`datetime.isoformat` emits (with and without a microsecond part). -/
def DateTime.fromisoformat (s : String) : Option DateTime := DateTime.fromisoList s.data

/-- Model of `datetime.strftime("%Y%m%d_%H%M%S")`, the filename timestamp. -/
def DateTime.strftimeCompact (t : DateTime) : String :=
  ⟨pad4 t.year ++ pad2 t.month ++ pad2 t.day ++ ('_' :: (pad2 t.hour ++ pad2 t.minute ++
    pad2 t.second))⟩

def isLeapYear (y : Nat) : Bool :=
  (y % 4 == 0 && y % 100 != 0) || y % 400 == 0

/-- Cumulative days before month `m` in a non-leap year. -/
def cumDaysBeforeMonth : Nat → Nat
  | 1 => 0
  | 2 => 31
  | 3 => 59
  | 4 => 90
  | 5 => 120
  | 6 => 151
  | 7 => 181
  | 8 => 212
  | 9 => 243
  | 10 => 273
  | 11 => 304
  | 12 => 334
  | _ => 365

/-- Proleptic Gregorian ordinal, as in Python `date.toordinal`; date
subtraction `(a - b).days` is the difference of ordinals. -/
def Date.toOrdinal (d : Date) : Int :=
  let y := d.year - 1
  Int.ofNat (365 * y + y / 4 - y / 100 + y / 400 + cumDaysBeforeMonth d.month +
    (if 2 < d.month ∧ isLeapYear d.year then 1 else 0) + d.day)

/-- Model of Python `(a - b).days` for two dates. -/
def Date.subDays (a b : Date) : Int := a.toOrdinal - b.toOrdinal

def Date.lt (a b : Date) : Bool := a.toOrdinal < b.toOrdinal

def Date.le (a b : Date) : Bool := a.toOrdinal ≤ b.toOrdinal

def daysInMonth (y m : Nat) : Nat :=
  match m with
  | 2 => if isLeapYear y then 29 else 28
  | 4 => 30
  | 6 => 30
  | 9 => 30
  | 11 => 30
  | _ => 31

def Date.next (d : Date) : Date :=
  if d.day < daysInMonth d.year d.month then ⟨d.year, d.month, d.day + 1⟩
  else if d.month < 12 then ⟨d.year, d.month + 1, 1⟩
  else ⟨d.year + 1, 1, 1⟩

def Date.prev (d : Date) : Date :=
  if 1 < d.day then ⟨d.year, d.month, d.day - 1⟩
  else if 1 < d.month then ⟨d.year, d.month - 1, daysInMonth d.year (d.month - 1)⟩
  else ⟨d.year - 1, 12, 31⟩

def Date.addDaysNat : Date → Nat → Date
  | d, 0 => d
  | d, n + 1 => Date.addDaysNat d.next n

def Date.subDaysNat : Date → Nat → Date
  | d, 0 => d
  | d, n + 1 => Date.subDaysNat d.prev n

/-- Model of `date + timedelta(days = n)`. -/
def Date.addDays (d : Date) (n : Int) : Date :=
  if 0 ≤ n then d.addDaysNat n.toNat else d.subDaysNat (-n).toNat

/-! ## JSON values

The repository serializes records with `json.dumps` / `json.loads`; the
round trip through the file is the identity on JSON trees, so storage holds
the trees themselves. -/

inductive Json where
  | null : Json
  | bool : Bool → Json
  | num : Int → Json
  | str : String → Json
  | arr : List Json → Json
  | obj : List (String × Json) → Json
deriving Repr

abbrev Dict := List (String × Json)

def dictGet : Dict → String → Option Json
  | [], _ => none
  | (k, v) :: rest, key => if k = key then some v else dictGet rest key

def dictGetD (d : Dict) (k : String) (dflt : Json) : Json := (dictGet d k).getD dflt

def dictHasKey (d : Dict) (k : String) : Bool := (dictGet d k).isSome

/-- Python truthiness of a JSON-shaped value. -/
def jTruthy : Json → Bool
  | .null => false
  | .bool b => b
  | .num n => n != 0
  | .str s => s != ""
  | .arr xs => !xs.isEmpty
  | .obj kvs => !kvs.isEmpty

/-- Python `len` on a JSON-shaped value; `none` marks the sizes `len` raises
`TypeError` on. -/
def jLen : Json → Option Nat
  | .str s => some s.length
  | .arr xs => some xs.length
  | .obj kvs => some kvs.length
  | _ => none

/-- Extract a string value; the dynamically typed source stores raw values,
the typed embedding keeps only well-typed ones. -/
def asStr : Json → Option String
  | .str s => some s
  | _ => none

def jAsOptStr : Option Json → Option String
  | some (.str s) => some s
  | _ => none

def jAsOptInt : Option Json → Option Int
  | some (.num n) => some n
  | _ => none

def jAsStrList : Option Json → List String
  | some (.arr xs) => xs.filterMap asStr
  | _ => []

def jAsBool : Option Json → Bool
  | some (.bool b) => b
  | _ => false

/-! ## Enumerations and dataclasses (models/prior_auth_models.py) -/

inductive AuthorizationStatus where
  | APPROVED
  | DENIED
  | PENDING
  | PEER_TO_PEER_REQUIRED
  | ADDITIONAL_INFO_REQUIRED
  | UNKNOWN
deriving DecidableEq, Repr

def AuthorizationStatus.value : AuthorizationStatus → String
  | .APPROVED => "approved"
  | .DENIED => "denied"
  | .PENDING => "pending"
  | .PEER_TO_PEER_REQUIRED => "peer_to_peer_required"
  | .ADDITIONAL_INFO_REQUIRED => "additional_info_required"
  | .UNKNOWN => "unknown"

/-- Model of the enum constructor `AuthorizationStatus(raw)`: `none` marks the
`ValueError` it raises on an unrecognized value. -/
def AuthorizationStatus.fromValue (s : String) : Option AuthorizationStatus :=
  if s = "approved" then some .APPROVED
  else if s = "denied" then some .DENIED
  else if s = "pending" then some .PENDING
  else if s = "peer_to_peer_required" then some .PEER_TO_PEER_REQUIRED
  else if s = "additional_info_required" then some .ADDITIONAL_INFO_REQUIRED
  else if s = "unknown" then some .UNKNOWN
  else none

inductive CallOutcome where
  | SUCCESS
  | PARTIAL
  | FAILED
  | DISCONNECTED
deriving DecidableEq, Repr

def CallOutcome.value : CallOutcome → String
  | .SUCCESS => "success"
  | .PARTIAL => "partial"
  | .FAILED => "failed"
  | .DISCONNECTED => "disconnected"

def CallOutcome.fromValue (s : String) : Option CallOutcome :=
  if s = "success" then some .SUCCESS
  else if s = "partial" then some .PARTIAL
  else if s = "failed" then some .FAILED
  else if s = "disconnected" then some .DISCONNECTED
  else none

structure PatientInfo where
  name : String
  date_of_birth : Option Date := none
  member_id : Option String := none
deriving DecidableEq, Repr

structure ProviderInfo where
  name : String
  npi : Option String := none
  phone : Option String := none
  fax : Option String := none
deriving DecidableEq, Repr

structure ProcedureInfo where
  cpt_code : String
  description : Option String := none
  icd_code : Option String := none
  icd_description : Option String := none
  proposed_date : Option Date := none
  urgency : Option String := none
deriving DecidableEq, Repr

structure AuthorizationInfo where
  status : AuthorizationStatus := .UNKNOWN
  reference_number : Option String := none
  authorization_number : Option String := none
  valid_from : Option Date := none
  valid_to : Option Date := none
  approved_units : Option Int := none
  notes : Option String := none
deriving DecidableEq, Repr

structure RepresentativeInfo where
  name : Option String := none
  id : Option String := none
  phone : Option String := none
  extension : Option String := none
  department : Option String := none
deriving DecidableEq, Repr

structure DocumentationRequirements where
  required_documents : List String := []
  submission_method : Option String := none
  fax_number : Option String := none
  portal_url : Option String := none
  submission_deadline : Option Date := none
  special_forms : List String := []
deriving DecidableEq, Repr

structure TimelineInfo where
  standard_turnaround_days : Option Int := none
  expedited_requested : Bool := false
  expedited_approved : Bool := false
  expected_decision_date : Option Date := none
  follow_up_date : Option Date := none
deriving DecidableEq, Repr

structure PriorAuthRecord where
  call_id : String
  call_date : DateTime
  insurance_company : String
  patient : PatientInfo
  provider : ProviderInfo
  procedure : ProcedureInfo
  authorization : AuthorizationInfo := {}
  representative : RepresentativeInfo := {}
  documentation : DocumentationRequirements := {}
  timeline : TimelineInfo := {}
  call_outcome : CallOutcome := .FAILED
  conversation_transcript : List String := []
  extracted_entities : Dict := []
  missing_fields : List String := []
  validation_errors : List String := []
  validation_warnings : List String := []
  next_steps : List String := []
  created_at : DateTime
  updated_at : DateTime
deriving Repr

/-- Python truthiness of an optional string (`None` and `""` are falsy). -/
def truthyS : Option String → Bool
  | none => false
  | some s => s != ""

/-- Python truthiness of an optional date (a date object is always truthy). -/
def truthyD (o : Option Date) : Bool := o.isSome

/-- Python truthiness of an optional int (`None` and `0` are falsy). -/
def truthyI : Option Int → Bool
  | none => false
  | some n => n != 0

def truthyL (l : List String) : Bool := !l.isEmpty

/-! ## Serialization (to_dict / from_dict of prior_auth_models.py)

`to_dict` emits keys in Python dict insertion order; `from_dict` mirrors the
per-structure conversion blocks followed by the dataclass constructor call
(`cls(**data)`), whose `TypeError`/`KeyError`/`ValueError` failure modes are
`none`. -/

def optStrJson : Option String → Json
  | none => .null
  | some s => .str s

def optIntJson : Option Int → Json
  | none => .null
  | some n => .num n

def optDateJson : Option Date → Json
  | none => .null
  | some d => .str d.isoformat

def PatientInfo.to_dict (p : PatientInfo) : Json :=
  .obj [("name", .str p.name), ("date_of_birth", optDateJson p.date_of_birth),
        ("member_id", optStrJson p.member_id)]

def ProviderInfo.to_dict (p : ProviderInfo) : Json :=
  .obj [("name", .str p.name), ("npi", optStrJson p.npi), ("phone", optStrJson p.phone),
        ("fax", optStrJson p.fax)]

def ProcedureInfo.to_dict (p : ProcedureInfo) : Json :=
  .obj [("cpt_code", .str p.cpt_code), ("description", optStrJson p.description),
        ("icd_code", optStrJson p.icd_code), ("icd_description", optStrJson p.icd_description),
        ("proposed_date", optDateJson p.proposed_date), ("urgency", optStrJson p.urgency)]

/-- AuthorizationInfo.to_dict: the five scalar keys are always present;
`valid_from` / `valid_to` are only inserted when set. -/
def AuthorizationInfo.to_dict (a : AuthorizationInfo) : Json :=
  .obj ([("status", .str a.status.value), ("reference_number", optStrJson a.reference_number),
         ("authorization_number", optStrJson a.authorization_number),
         ("approved_units", optIntJson a.approved_units), ("notes", optStrJson a.notes)] ++
    (match a.valid_from with
     | some d => [("valid_from", Json.str d.isoformat)]
     | none => []) ++
    (match a.valid_to with
     | some d => [("valid_to", Json.str d.isoformat)]
     | none => []))

def RepresentativeInfo.to_dict (r : RepresentativeInfo) : Json :=
  .obj [("name", optStrJson r.name), ("id", optStrJson r.id), ("phone", optStrJson r.phone),
        ("extension", optStrJson r.extension), ("department", optStrJson r.department)]

def DocumentationRequirements.to_dict (d : DocumentationRequirements) : Json :=
  .obj [("required_documents", .arr (d.required_documents.map Json.str)),
        ("submission_method", optStrJson d.submission_method),
        ("fax_number", optStrJson d.fax_number), ("portal_url", optStrJson d.portal_url),
        ("submission_deadline", optDateJson d.submission_deadline),
        ("special_forms", .arr (d.special_forms.map Json.str))]

def TimelineInfo.to_dict (t : TimelineInfo) : Json :=
  .obj [("standard_turnaround_days", optIntJson t.standard_turnaround_days),
        ("expedited_requested", .bool t.expedited_requested),
        ("expedited_approved", .bool t.expedited_approved),
        ("expected_decision_date", optDateJson t.expected_decision_date),
        ("follow_up_date", optDateJson t.follow_up_date)]

def PriorAuthRecord.to_dict (r : PriorAuthRecord) : Json :=
  .obj [("call_id", .str r.call_id), ("call_date", .str r.call_date.isoformat),
        ("insurance_company", .str r.insurance_company),
        ("patient", r.patient.to_dict), ("provider", r.provider.to_dict),
        ("procedure", r.procedure.to_dict), ("authorization", r.authorization.to_dict),
        ("representative", r.representative.to_dict),
        ("documentation", r.documentation.to_dict), ("timeline", r.timeline.to_dict),
        ("call_outcome", .str r.call_outcome.value),
        ("conversation_transcript", .arr (r.conversation_transcript.map Json.str)),
        ("extracted_entities", .obj r.extracted_entities),
        ("missing_fields", .arr (r.missing_fields.map Json.str)),
        ("validation_errors", .arr (r.validation_errors.map Json.str)),
        ("validation_warnings", .arr (r.validation_warnings.map Json.str)),
        ("next_steps", .arr (r.next_steps.map Json.str)),
        ("created_at", .str r.created_at.isoformat),
        ("updated_at", .str r.updated_at.isoformat)]

def keysAllowed : Dict → List String → Bool
  | [], _ => true
  | (k, _) :: rest, allowed => allowed.contains k && keysAllowed rest allowed

/-- Mirrors `if key in d and d[key]: d[key] = date.fromisoformat(d[key])` followed
by the dataclass default (`None`) for an absent key; a non-string truthy value
makes `fromisoformat` raise `TypeError` (`none`). -/
def parseOptDateField : Option Json → Option (Option Date)
  | none => some none
  | some j =>
    if jTruthy j then
      match j with
      | .str s => (Date.fromisoformat s).map some
      | _ => none
    else some none

def parseOptStrField : Option Json → Option (Option String)
  | none => some none
  | some .null => some none
  | some (.str s) => some (some s)
  | some _ => none

def parseOptIntField : Option Json → Option (Option Int)
  | none => some none
  | some .null => some none
  | some (.num n) => some (some n)
  | some _ => none

def strListFromJson : List Json → Option (List String)
  | [] => some []
  | j :: rest => do
    let s ← asStr j
    let tail ← strListFromJson rest
    pure (s :: tail)

def parseStrListField : Option Json → Option (List String)
  | none => some []
  | some (.arr xs) => strListFromJson xs
  | some _ => none

def parseBoolField : Option Json → Option Bool
  | none => some false
  | some (.bool b) => some b
  | some _ => none

def parsePatientInfo (j : Json) : Option PatientInfo :=
  match j with
  | .obj kvs =>
    if keysAllowed kvs ["name", "date_of_birth", "member_id"] then do
      let name ← dictGet kvs "name" >>= asStr
      let dob ← parseOptDateField (dictGet kvs "date_of_birth")
      let mid ← parseOptStrField (dictGet kvs "member_id")
      pure ⟨name, dob, mid⟩
    else none
  | _ => none

def parseProviderInfo (j : Json) : Option ProviderInfo :=
  match j with
  | .obj kvs =>
    if keysAllowed kvs ["name", "npi", "phone", "fax"] then do
      let name ← dictGet kvs "name" >>= asStr
      let npi ← parseOptStrField (dictGet kvs "npi")
      let phone ← parseOptStrField (dictGet kvs "phone")
      let fax ← parseOptStrField (dictGet kvs "fax")
      pure ⟨name, npi, phone, fax⟩
    else none
  | _ => none

def parseProcedureInfo (j : Json) : Option ProcedureInfo :=
  match j with
  | .obj kvs =>
    if keysAllowed kvs ["cpt_code", "description", "icd_code", "icd_description",
        "proposed_date", "urgency"] then do
      let cpt ← dictGet kvs "cpt_code" >>= asStr
      let descr ← parseOptStrField (dictGet kvs "description")
      let icd ← parseOptStrField (dictGet kvs "icd_code")
      let icdDescr ← parseOptStrField (dictGet kvs "icd_description")
      let pd ← parseOptDateField (dictGet kvs "proposed_date")
      let urg ← parseOptStrField (dictGet kvs "urgency")
      pure ⟨cpt, descr, icd, icdDescr, pd, urg⟩
    else none
  | _ => none

def parseAuthorizationInfo (j : Json) : Option AuthorizationInfo :=
  match j with
  | .obj kvs =>
    if keysAllowed kvs ["status", "reference_number", "authorization_number",
        "approved_units", "notes", "valid_from", "valid_to"] then do
      let st ← dictGet kvs "status" >>= asStr >>= AuthorizationStatus.fromValue
      let ref ← parseOptStrField (dictGet kvs "reference_number")
      let auth ← parseOptStrField (dictGet kvs "authorization_number")
      let vf ← parseOptDateField (dictGet kvs "valid_from")
      let vt ← parseOptDateField (dictGet kvs "valid_to")
      let units ← parseOptIntField (dictGet kvs "approved_units")
      let notes ← parseOptStrField (dictGet kvs "notes")
      pure ⟨st, ref, auth, vf, vt, units, notes⟩
    else none
  | _ => none

def parseRepresentativeInfo (j : Json) : Option RepresentativeInfo :=
  match j with
  | .obj kvs =>
    if keysAllowed kvs ["name", "id", "phone", "extension", "department"] then do
      let name ← parseOptStrField (dictGet kvs "name")
      let i ← parseOptStrField (dictGet kvs "id")
      let phone ← parseOptStrField (dictGet kvs "phone")
      let ext ← parseOptStrField (dictGet kvs "extension")
      let dept ← parseOptStrField (dictGet kvs "department")
      pure ⟨name, i, phone, ext, dept⟩
    else none
  | _ => none

def parseDocumentationRequirements (j : Json) : Option DocumentationRequirements :=
  match j with
  | .obj kvs =>
    if keysAllowed kvs ["required_documents", "submission_method", "fax_number",
        "portal_url", "submission_deadline", "special_forms"] then do
      let docs ← parseStrListField (dictGet kvs "required_documents")
      let sm ← parseOptStrField (dictGet kvs "submission_method")
      let fx ← parseOptStrField (dictGet kvs "fax_number")
      let pu ← parseOptStrField (dictGet kvs "portal_url")
      let sd ← parseOptDateField (dictGet kvs "submission_deadline")
      let sf ← parseStrListField (dictGet kvs "special_forms")
      pure ⟨docs, sm, fx, pu, sd, sf⟩
    else none
  | _ => none

def parseTimelineInfo (j : Json) : Option TimelineInfo :=
  match j with
  | .obj kvs =>
    if keysAllowed kvs ["standard_turnaround_days", "expedited_requested",
        "expedited_approved", "expected_decision_date", "follow_up_date"] then do
      let td ← parseOptIntField (dictGet kvs "standard_turnaround_days")
      let er ← parseBoolField (dictGet kvs "expedited_requested")
      let ea ← parseBoolField (dictGet kvs "expedited_approved")
      let edd ← parseOptDateField (dictGet kvs "expected_decision_date")
      let fu ← parseOptDateField (dictGet kvs "follow_up_date")
      pure ⟨td, er, ea, edd, fu⟩
    else none
  | _ => none

def parseDateTimeField (o : Option Json) : Option DateTime :=
  match o with
  | some (.str s) => DateTime.fromisoformat s
  | _ => none

def parseEntitiesField : Option Json → Option Dict
  | none => some []
  | some (.obj kvs) => some kvs
  | some _ => none

def recordKeys : List String :=
  ["call_id", "call_date", "insurance_company", "patient", "provider", "procedure",
   "authorization", "representative", "documentation", "timeline", "call_outcome",
   "conversation_transcript", "extracted_entities", "missing_fields", "validation_errors",
   "validation_warnings", "next_steps", "created_at", "updated_at"]

def fromDictHead (kvs : Dict) : Option (String × DateTime × String × PatientInfo ×
    ProviderInfo × ProcedureInfo) := do
  let cid ← dictGet kvs "call_id" >>= asStr
  let cdate ← parseDateTimeField (dictGet kvs "call_date")
  let ic ← dictGet kvs "insurance_company" >>= asStr
  let patient ← dictGet kvs "patient" >>= parsePatientInfo
  let provider ← dictGet kvs "provider" >>= parseProviderInfo
  let procedure ← dictGet kvs "procedure" >>= parseProcedureInfo
  pure (cid, cdate, ic, patient, provider, procedure)

def fromDictMid (kvs : Dict) : Option (AuthorizationInfo × RepresentativeInfo ×
    DocumentationRequirements × TimelineInfo × CallOutcome) := do
  let auth ← dictGet kvs "authorization" >>= parseAuthorizationInfo
  let rep ← dictGet kvs "representative" >>= parseRepresentativeInfo
  let docu ← dictGet kvs "documentation" >>= parseDocumentationRequirements
  let timeline ← dictGet kvs "timeline" >>= parseTimelineInfo
  let outcome ← dictGet kvs "call_outcome" >>= asStr >>= CallOutcome.fromValue
  pure (auth, rep, docu, timeline, outcome)

def fromDictTail (kvs : Dict) : Option ((List String) × Dict × (List String) ×
    (List String) × (List String) × (List String) × DateTime × DateTime) := do
  let transcript ← parseStrListField (dictGet kvs "conversation_transcript")
  let entities ← parseEntitiesField (dictGet kvs "extracted_entities")
  let missing ← parseStrListField (dictGet kvs "missing_fields")
  let errs ← parseStrListField (dictGet kvs "validation_errors")
  let warns ← parseStrListField (dictGet kvs "validation_warnings")
  let steps ← parseStrListField (dictGet kvs "next_steps")
  let createdAt ← parseDateTimeField (dictGet kvs "created_at")
  let updatedAt ← parseDateTimeField (dictGet kvs "updated_at")
  pure (transcript, entities, missing, errs, warns, steps, createdAt, updatedAt)

def PriorAuthRecord.from_dict (j : Json) : Option PriorAuthRecord :=
  match j with
  | .obj kvs =>
    if keysAllowed kvs recordKeys then do
      let (cid, cdate, ic, patient, provider, procedure) ← fromDictHead kvs
      let (auth, rep, docu, timeline, outcome) ← fromDictMid kvs
      let (transcript, entities, missing, errs, warns, steps, cAt, uAt) ← fromDictTail kvs
      pure { call_id := cid, call_date := cdate, insurance_company := ic,
             patient := patient, provider := provider, procedure := procedure,
             authorization := auth, representative := rep, documentation := docu,
             timeline := timeline, call_outcome := outcome,
             conversation_transcript := transcript, extracted_entities := entities,
             missing_fields := missing, validation_errors := errs,
             validation_warnings := warns, next_steps := steps,
             created_at := cAt, updated_at := uAt }
    else none
  | _ => none

/-! ## Validator (validators/prior_auth_validator.py)

The source threads a mutable record through `_validate_completeness`,
`_validate_formats`, `_validate_business_rules`, `_generate_next_steps` and
`_update_call_outcome`, each only appending to the four derived arrays (and
the last setting the outcome).  The embedding flattens that threading into
concatenation of each phase's findings, listed in execution order. -/

/-- The nested field paths occurring in `REQUIRED_FIELDS_BY_STATUS`. -/
inductive FieldPath where
  | authReferenceNumber
  | authAuthorizationNumber
  | repName
  | repPhone
  | timelineExpectedDecisionDate
  | docRequiredDocuments
  | docSubmissionDeadline
deriving DecidableEq, Repr

/-- Final component of the dotted path (`field_path.split('.')[-1]`). -/
def FieldPath.lastName : FieldPath → String
  | .authReferenceNumber => "reference_number"
  | .authAuthorizationNumber => "authorization_number"
  | .repName => "name"
  | .repPhone => "phone"
  | .timelineExpectedDecisionDate => "expected_decision_date"
  | .docRequiredDocuments => "required_documents"
  | .docSubmissionDeadline => "submission_deadline"

/-- Truthiness of `_get_nested_field(record, path)` (`None`, `""` and `[]`
are falsy). -/
def FieldPath.present (r : PriorAuthRecord) : FieldPath → Bool
  | .authReferenceNumber => truthyS r.authorization.reference_number
  | .authAuthorizationNumber => truthyS r.authorization.authorization_number
  | .repName => truthyS r.representative.name
  | .repPhone => truthyS r.representative.phone
  | .timelineExpectedDecisionDate => truthyD r.timeline.expected_decision_date
  | .docRequiredDocuments => truthyL r.documentation.required_documents
  | .docSubmissionDeadline => truthyD r.documentation.submission_deadline

def REQUIRED_FIELDS_BY_STATUS : AuthorizationStatus → List FieldPath
  | .APPROVED => [.authReferenceNumber, .authAuthorizationNumber, .repName,
                  .timelineExpectedDecisionDate]
  | .PENDING => [.authReferenceNumber, .docRequiredDocuments, .docSubmissionDeadline,
                 .repName]
  | .DENIED => [.authReferenceNumber, .repName]
  | .PEER_TO_PEER_REQUIRED => [.authReferenceNumber, .repName, .repPhone]
  | _ => []

/-- `_validate_completeness`: returns (missing, errors, warnings) appended in
execution order. -/
def completenessFindings (r : PriorAuthRecord) : List String × List String × List String :=
  let refCheck := !truthyS r.authorization.reference_number &&
    !truthyS r.authorization.authorization_number
  let m1 := if refCheck then ["authorization_reference_number"] else []
  let e1 := if refCheck then ["No authorization or reference number obtained from call"]
    else []
  let reqMissing := (REQUIRED_FIELDS_BY_STATUS r.authorization.status).filter
    (fun fp => !fp.present r)
  let m2 := reqMissing.map FieldPath.lastName
  let w2 := reqMissing.map (fun fp => "Missing required field: " ++ fp.lastName)
  let repCheck := !truthyS r.representative.name
  let m3 := if repCheck then ["representative_name"] else []
  let w3 := if repCheck then ["Insurance representative name not captured"] else []
  let pend := r.authorization.status == .PENDING ||
    r.authorization.status == .ADDITIONAL_INFO_REQUIRED
  let docCheck := pend && !truthyL r.documentation.required_documents
  let m4 := if docCheck then ["required_documents"] else []
  let e4 := if docCheck then
    ["Authorization pending but no documentation requirements captured"] else []
  let dlCheck := pend && !truthyD r.documentation.submission_deadline
  let m5 := if dlCheck then ["submission_deadline"] else []
  let e5 := if dlCheck then ["No documentation submission deadline captured"] else []
  (m1 ++ m2 ++ m3 ++ m4 ++ m5, e1 ++ e4 ++ e5, w2 ++ w3)

def isDigit (c : Char) : Bool := 48 ≤ c.toNat && c.toNat ≤ 57

def isUpperAZ (c : Char) : Bool := 65 ≤ c.toNat && c.toNat ≤ 90

def isAlphaAscii (c : Char) : Bool := isUpperAZ c || (97 ≤ c.toNat && c.toNat ≤ 122)

/-- Model of `re.match(r'^\d{5}$', s)` viewed as a Boolean. -/
def matchFiveDigits (s : String) : Bool := s.data.length == 5 && s.data.all isDigit

def matchIcdTail : List Char → Bool
  | [] => true
  | ['.'] => true
  | [c] => isDigit c
  | ['.', c] => isDigit c
  | [c1, c2] => isDigit c1 && isDigit c2
  | ['.', c1, c2] => isDigit c1 && isDigit c2
  | _ => false

/-- Model of `re.match(r'^[A-Z]\d{2}\.?\d{0,2}$', s)`. -/
def matchIcd (s : String) : Bool :=
  match s.data with
  | c :: d1 :: d2 :: tail => isUpperAZ c && isDigit d1 && isDigit d2 && matchIcdTail tail
  | _ => false

def matchTenDigits (s : String) : Bool := s.data.length == 10 && s.data.all isDigit

def isPyWhitespace (c : Char) : Bool :=
  c = ' ' || c = '\t' || c = '\n' || c = '\r'

/-- Characters stripped by `re.sub(r'[\s\-\(\)\.]+', '', phone)`. -/
def isPhoneSeparator (c : Char) : Bool :=
  isPyWhitespace c || c = '-' || c = '(' || c = ')' || c = '.'

/-- `_is_valid_phone`: after stripping separators, 10 digits or a leading 1
followed by 10 digits. -/
def isValidPhone (s : String) : Bool :=
  let clean := s.data.filter (fun c => !isPhoneSeparator c)
  (clean.length == 10 && clean.all isDigit) ||
  (match clean with
   | '1' :: rest => rest.length == 10 && rest.all isDigit
   | _ => false)

/-- Model of `re.match(r'^[A-Z0-9\-]+$', s, re.IGNORECASE)`. -/
def matchAuthNumber (s : String) : Bool :=
  !s.data.isEmpty && s.data.all (fun c => isAlphaAscii c || isDigit c || c = '-')

/-- `_validate_formats`: warnings only, in execution order. -/
def formatWarnings (r : PriorAuthRecord) : List String :=
  (if r.procedure.cpt_code != "" && !matchFiveDigits r.procedure.cpt_code then
    ["Invalid CPT code format: " ++ r.procedure.cpt_code] else []) ++
  (match r.procedure.icd_code with
   | some icd => if icd != "" && !matchIcd icd then
       ["Invalid ICD-10 code format: " ++ icd] else []
   | none => []) ++
  (match r.provider.npi with
   | some npi => if npi != "" && !matchTenDigits npi then
       ["Invalid NPI format: " ++ npi] else []
   | none => []) ++
  (match r.documentation.fax_number with
   | some fx => if fx != "" && !isValidPhone fx then
       ["Invalid fax number format: " ++ fx] else []
   | none => []) ++
  (match r.authorization.authorization_number with
   | some an => if an != "" && !matchAuthNumber an then
       ["Unusual authorization number format: " ++ an] else []
   | none => [])

/-- `_validate_business_rules`: returns (errors, warnings) in execution
order; `today` is `date.today()`. -/
def businessFindings (today : Date) (r : PriorAuthRecord) : List String × List String :=
  let vw := match r.authorization.valid_from, r.authorization.valid_to with
    | some vf, some vt =>
      let validity_days := Date.subDays vt vf
      if validity_days < 0 then (["Authorization end date is before start date"], [])
      else if validity_days < 30 then
        ([], ["Short authorization validity period: " ++ toString validity_days ++ " days"])
      else if validity_days > 365 then
        ([], ["Unusually long authorization validity period: " ++ toString validity_days ++
              " days"])
      else ([], [])
    | _, _ => ([], [])
  let e2 := match r.documentation.submission_deadline, r.procedure.proposed_date with
    | some dl, some pd =>
      if Date.le pd dl then
        ["Documentation deadline is on or after procedure date - may cause delays"]
      else []
    | _, _ => []
  let dw := match r.documentation.submission_deadline with
    | some dl =>
      if Date.lt dl today then
        (["Documentation deadline has already passed: " ++ dl.isoformat], [])
      else if Date.subDays dl today ≤ 1 then
        ([], ["Documentation deadline is very soon (within 1 day)"])
      else ([], [])
    | none => ([], [])
  let w4 := match r.timeline.standard_turnaround_days with
    | some td =>
      if td != 0 then
        if td < 1 then ["Unusually fast turnaround time"]
        else if td > 30 then ["Very long turnaround time - consider expedited review"]
        else []
      else []
    | none => []
  let e5 := if r.authorization.status == .APPROVED &&
      !truthyS r.authorization.authorization_number then
    ["Authorization approved but no authorization number provided"] else []
  let w6 := if r.authorization.status == .DENIED && !truthyS r.authorization.notes then
    ["Authorization denied but no denial reason captured"] else []
  let e7 := if r.authorization.status == .PEER_TO_PEER_REQUIRED &&
      !truthyS r.representative.phone then
    ["Peer-to-peer required but no callback number captured"] else []
  (vw.1 ++ e2 ++ dw.1 ++ e5 ++ e7, vw.2 ++ dw.2 ++ w4 ++ w6)

/-- `_generate_next_steps`, reading the missing/error arrays computed earlier
in the same pass. -/
def nextStepsFor (r : PriorAuthRecord) (missing errors : List String) : List String :=
  (match r.authorization.status with
   | .APPROVED =>
     (match r.authorization.authorization_number with
      | some an => if an != "" then
          ["âœ… Authorization approved! Reference: " ++ an] else []
      | none => []) ++
     (match r.authorization.valid_to with
      | some vt => ["Authorization valid until " ++ vt.isoformat]
      | none => []) ++
     ["Proceed with scheduling procedure",
      "Update EHR/billing system with authorization number"]
   | .PENDING =>
     ["â³ Authorization pending - action required"] ++
     (if truthyL r.documentation.required_documents then
       ["Submit required documents: " ++
         String.intercalate ", " r.documentation.required_documents] else []) ++
     (match r.documentation.submission_deadline with
      | some dl => ["âš ï¸ Deadline: " ++ dl.isoformat]
      | none => []) ++
     (match r.documentation.fax_number with
      | some fx => if fx != "" then ["Fax documents to: " ++ fx] else []
      | none => []) ++
     (match r.timeline.expected_decision_date with
      | some ed => ["Expected decision by: " ++ ed.isoformat]
      | none => []) ++
     ["Follow up if no decision received by expected date"]
   | .DENIED =>
     ["âŒ Authorization denied - appeal required",
      "Review denial reason with provider",
      "Gather additional documentation for appeal",
      "Submit formal appeal within insurance timeline"] ++
     (match r.representative.name with
      | some nm => if nm != "" then
          ["Contact representative " ++ nm ++ " for appeal process"] else []
      | none => [])
   | .PEER_TO_PEER_REQUIRED =>
     ["ðŸ‘¨â€âš•ï¸ Peer-to-peer review required",
      "Schedule peer-to-peer call between provider and insurance medical director"] ++
     (match r.representative.phone with
      | some ph => if ph != "" then ["Call " ++ ph ++ " to schedule"] else []
      | none => []) ++
     ["Prepare clinical documentation for review"]
   | _ => []) ++
  (if !missing.isEmpty then
    ["âš ï¸ Incomplete information - missing: " ++ String.intercalate ", " (missing.take 3),
     "Call back to obtain missing information"] else []) ++
  (if !errors.isEmpty then
    ["âš ï¸ " ++ toString errors.length ++ " validation errors need attention"] else [])

/-- `_update_call_outcome`: demote a pre-existing SUCCESS when errors exist,
then the success / partial / failed elif-chain (which only consults the
reference number, not the authorization number). -/
def updateCallOutcome (errors : List String) (auth : AuthorizationInfo)
    (outcome : CallOutcome) : CallOutcome :=
  let o1 := if 0 < errors.length && outcome == .SUCCESS then .PARTIAL else outcome
  if auth.status == .APPROVED && truthyS auth.authorization_number &&
      errors.length == 0 then
    .SUCCESS
  else if truthyS auth.reference_number && auth.status != .UNKNOWN then
    .PARTIAL
  else if !truthyS auth.reference_number then
    .FAILED
  else o1

/-- `PriorAuthValidator.validate`: clear the four derived arrays, run the
phases, set the outcome. -/
def validate (today : Date) (r : PriorAuthRecord) : PriorAuthRecord :=
  let c := completenessFindings r
  let fw := formatWarnings r
  let b := businessFindings today r
  let missing := c.1
  let errors := c.2.1 ++ b.1
  let warnings := c.2.2 ++ fw ++ b.2
  { r with missing_fields := missing,
           validation_errors := errors,
           validation_warnings := warnings,
           next_steps := nextStepsFor r missing errors,
           call_outcome := updateCallOutcome errors r.authorization r.call_outcome }

/-! ## Storage (storage/prior_auth_storage.py)

The file system is explicit state: an association list from path to the JSON
tree written there (latest write first).  The advisory `.txt` summary is
write-only in the source (never parsed back) and is not modelled. -/

def subdirForStatus : AuthorizationStatus → String
  | .APPROVED => "approved"
  | .DENIED => "denied"
  | .PENDING => "pending"
  | .PEER_TO_PEER_REQUIRED => "pending"
  | .ADDITIONAL_INFO_REQUIRED => "pending"
  | .UNKNOWN => "failed"

abbrev FileSys := List (String × Json)

def fsSet (fs : FileSys) (path : String) (v : Json) : FileSys := (path, v) :: fs

/-- `save_record`: bucket by status, name the file
`YYYYMMDD_HHMMSS_<callId>.json`, refuse to overwrite when asked to, stamp
`updated_at`, write `to_dict`.  Returns (new file system, returned path). -/
def save_record (fs : FileSys) (dir : String) (now : DateTime) (r : PriorAuthRecord)
    (overwrite : Bool) : FileSys × String :=
  let subdir := subdirForStatus r.authorization.status
  let filename := now.strftimeCompact ++ "_" ++ r.call_id ++ ".json"
  let filepath := dir ++ "/" ++ subdir ++ "/" ++ filename
  if (dictGet fs filepath).isSome && !overwrite then (fs, filepath)
  else ((fsSet fs filepath (PriorAuthRecord.to_dict { r with updated_at := now })),
        filepath)

def load_record (fs : FileSys) (filepath : String) : Option PriorAuthRecord :=
  (dictGet fs filepath).bind PriorAuthRecord.from_dict

/-- Contents of the four status buckets (the filenames `glob("*.json")`
yields, in arbitrary pre-sort order). -/
structure BucketStore where
  approved : List String
  pending : List String
  denied : List String
  failed : List String

def bucketFiles (st : BucketStore) : String → List String
  | "approved" => st.approved
  | "pending" => st.pending
  | "denied" => st.denied
  | "failed" => st.failed
  | _ => []

/-- Python string `<` (code-point lexicographic). -/
def pyStrLtList : List Char → List Char → Bool
  | [], [] => false
  | [], _ :: _ => true
  | _ :: _, [] => false
  | a :: xs, b :: ys =>
    if a.toNat < b.toNat then true
    else if b.toNat < a.toNat then false
    else pyStrLtList xs ys

def pyStrLt (a b : String) : Bool := pyStrLtList a.data b.data

def insertDesc (x : String) : List String → List String
  | [] => [x]
  | y :: ys => if pyStrLt y x then x :: y :: ys else y :: insertDesc x ys

/-- Model of `sorted(records, reverse=True)` on path strings. -/
def sortDesc (l : List String) : List String := l.foldr insertDesc []

/-- `Path.stem`: filename with its final extension removed. -/
def stemList (l : List Char) : List Char :=
  let rev := l.reverse
  if rev.contains '.' then ((rev.dropWhile (fun c => c ≠ '.')).drop 1).reverse else l

/-- `stem.split('_')[0]`. -/
def headUnderscore (l : List Char) : List Char := l.takeWhile (fun c => c ≠ '_')

/-- Model of `datetime.strptime(s, "%Y%m%d").date()`: eight digits with the
month/day range checks `strptime` performs; `none` is its `ValueError`. -/
def parseYmd8 (l : List Char) : Option Date :=
  match l with
  | [y1, y2, y3, y4, m1, m2, d1, d2] => do
    let y ← parse4 y1 y2 y3 y4
    let m ← parse2 m1 m2
    let d ← parse2 d1 d2
    if 1 ≤ m ∧ m ≤ 12 ∧ 1 ≤ d ∧ d ≤ 31 then pure ⟨y, m, d⟩ else none
  | _ => none

/-- Whether a filename passes the optional date filters (a filename whose
stem does not parse is silently included, mirroring the bare `pass`). -/
def dateFilterKeep (start_date end_date : Option Date) (fname : String) : Bool :=
  if start_date.isSome || end_date.isSome then
    match parseYmd8 (headUnderscore (stemList fname.data)) with
    | some fdate =>
      (match start_date with
       | some sd => !Date.lt fdate sd
       | none => true) &&
      (match end_date with
       | some ed => !Date.lt ed fdate
       | none => true)
    | none => true
  else true

/-- `list_records`: search the selected buckets, apply the date filters,
return full paths sorted descending.  The `outcome` parameter is accepted
and, as in the source, never read. -/
def list_records (dir : String) (st : BucketStore) (status : Option AuthorizationStatus)
    (outcome : Option CallOutcome) (start_date end_date : Option Date) : List String :=
  let subdirs := match status with
    | some s => [subdirForStatus s]
    | none => ["approved", "pending", "denied", "failed"]
  let collected := subdirs.foldr (fun sub acc =>
    ((bucketFiles st sub).filterMap (fun fname =>
      if dateFilterKeep start_date end_date fname then
        some (dir ++ "/" ++ sub ++ "/" ++ fname)
      else none)) ++ acc) []
  sortDesc collected

/-! ## Extractor (extractors/prior_auth_extractor.py)

The completion collaborator is a parameter: either a returned response text
or a raised error.  `json.loads` is likewise a parameter (`none` marks its
`JSONDecodeError`): only the structure of the dispatch around it is the
repository's code.  Python exceptions travel in `Except`; a total Lean
function models a Python function that cannot raise. -/

inductive PyErr where
  | attributeError
  | typeError
  | valueError
  | jsonDecodeError
  | exception (msg : String)
deriving DecidableEq, Repr

/-- Python `str.lower` (ASCII case mapping suffices for every keyword the
source compares against). -/
def strLower (s : String) : String := ⟨s.data.map Char.toLower⟩

def subListAt : List Char → List Char → Bool
  | [], _ => true
  | _ :: _, [] => false
  | a :: xs, b :: ys => a = b && subListAt xs ys

def containsList (needle : List Char) : List Char → Bool
  | [] => subListAt needle []
  | c :: cs => subListAt needle (c :: cs) || containsList needle cs

/-- Python `needle in hay` on strings. -/
def containsSub (needle hay : String) : Bool := containsList needle.data hay.data

/-- Case-insensitive literal match; returns the remaining input. -/
def matchLitCI : List Char → List Char → Option (List Char)
  | [], l => some l
  | _ :: _, [] => none
  | p :: ps, c :: cs => if p.toLower = c.toLower then matchLitCI ps cs else none

/-- `[A-Z][a-z]+` under `re.IGNORECASE`: a maximal run of at least two ASCII
letters.  Greedy-without-backtracking is exact here because in every source
pattern the letter run is followed by a non-letter (or the pattern ends). -/
def matchWordCI (l : List Char) : Option (List Char × List Char) :=
  let run := l.takeWhile isAlphaAscii
  if 2 ≤ run.length then some (run, l.dropWhile isAlphaAscii) else none

/-- Capture of `([A-Z][a-z]+ [A-Z][a-z]+)`. -/
def matchTwoWords (l : List Char) : Option (String × List Char) := do
  let (w1, rest1) ← matchWordCI l
  match rest1 with
  | ' ' :: rest2 => do
    let (w2, rest3) ← matchWordCI rest2
    pure (⟨w1 ++ (' ' :: w2)⟩, rest3)
  | _ => none

/-- Leftmost `re.search`: try the matcher at every suffix. -/
def searchSuffixes (f : List Char → Option String) : List Char → Option String
  | [] => f []
  | c :: cs =>
    match f (c :: cs) with
    | some r => some r
    | none => searchSuffixes f cs

def capAfterLit (lit : String) (l : List Char) : Option String := do
  let rest ← matchLitCI lit.data l
  let (cap, _) ← matchTwoWords rest
  pure cap

def capBeforeSpeaking (l : List Char) : Option String := do
  let (cap, rest) ← matchTwoWords l
  let _ ← matchLitCI " speaking".data rest
  pure cap

def aposChar : Char := Char.ofNat 39

/-- The four representative-name patterns, in source order; first match per
pattern over the whole text wins. -/
def findRepresentativeName (l : List Char) : Option String :=
  match searchSuffixes (capAfterLit "my name is ") l with
  | some r => some r
  | none =>
    match searchSuffixes (capAfterLit "this is ") l with
    | some r => some r
    | none =>
      match searchSuffixes capBeforeSpeaking l with
      | some r => some r
      | none => searchSuffixes (capAfterLit ⟨['I', aposChar, 'm', ' ']⟩) l

def isRefTokenChar (c : Char) : Bool := isAlphaAscii c || isDigit c || c = '-'

def matchTokenOf (cls : Char → Bool) (l : List Char) : Option (String × List Char) :=
  let run := l.takeWhile cls
  if run.isEmpty then none else some (⟨run⟩, l.dropWhile cls)

/-- `reference (?:number|ID|id) is ([A-Z0-9-]+)`. -/
def refPat1 (l : List Char) : Option String := do
  let r1 ← matchLitCI "reference ".data l
  let r2 ← match matchLitCI "number".data r1 with
    | some x => some x
    | none => matchLitCI "id".data r1
  let r3 ← matchLitCI " is ".data r2
  let (tok, _) ← matchTokenOf isRefTokenChar r3
  pure tok

/-- `:?\s*([A-Z0-9-]+)` (consuming an optional colon then whitespace cannot
hurt, since neither is a token character). -/
def refPat2Tail (l : List Char) : Option String :=
  let afterColon := match l with
    | ':' :: rest => rest
    | _ => l
  let afterSpaces := afterColon.dropWhile isPyWhitespace
  (matchTokenOf isRefTokenChar afterSpaces).map (fun x => x.1)

/-- `(?:#|number)?` followed by `refPat2Tail`, with regex alternation
order and backtracking over the finite options. -/
def refPat2Mid (l : List Char) : Option String :=
  let tryHash := match l with
    | '#' :: rest => refPat2Tail rest
    | _ => none
  match tryHash with
  | some s => some s
  | none =>
    match (matchLitCI "number".data l).bind refPat2Tail with
    | some s => some s
    | none => refPat2Tail l

/-- `ref(?:erence)? (?:#|number)?:?\s*([A-Z0-9-]+)`. -/
def refPat2 (l : List Char) : Option String :=
  (matchLitCI "ref".data l).bind (fun r1 =>
    let withTail := (matchLitCI "erence".data r1).bind (fun r2 =>
      match r2 with
      | ' ' :: r3 => refPat2Mid r3
      | _ => none)
    match withTail with
    | some s => some s
    | none =>
      match r1 with
      | ' ' :: r3 => refPat2Mid r3
      | _ => none)

/-- `reference:?\s*([A-Z0-9]+)` (token class without the hyphen). -/
def refPat3 (l : List Char) : Option String :=
  (matchLitCI "reference".data l).bind (fun r =>
    let afterColon := match r with
      | ':' :: rest => rest
      | _ => r
    let afterSpaces := afterColon.dropWhile isPyWhitespace
    (matchTokenOf (fun c => isAlphaAscii c || isDigit c) afterSpaces).map (fun x => x.1))

def findReferenceNumber (l : List Char) : Option String :=
  match searchSuffixes refPat1 l with
  | some r => some r
  | none =>
    match searchSuffixes refPat2 l with
    | some r => some r
    | none => searchSuffixes refPat3 l

/-- `authorization (?:number|code) is ([A-Z0-9-]+)`. -/
def authPat1 (l : List Char) : Option String := do
  let r1 ← matchLitCI "authorization ".data l
  let r2 ← match matchLitCI "number".data r1 with
    | some x => some x
    | none => matchLitCI "code".data r1
  let r3 ← matchLitCI " is ".data r2
  let (tok, _) ← matchTokenOf isRefTokenChar r3
  pure tok

/-- `auth (?:number|code|#):?\s*([A-Z0-9-]+)`. -/
def authPat2 (l : List Char) : Option String := do
  let r1 ← matchLitCI "auth ".data l
  let r2 ← match matchLitCI "number".data r1 with
    | some x => some x
    | none =>
      match matchLitCI "code".data r1 with
      | some x => some x
      | none =>
        match r1 with
        | '#' :: rest => some rest
        | _ => none
  refPat2Tail r2

/-- `[A-Z]{2,}\d+` at the current position. -/
def authLettersDigits (l : List Char) : Option String :=
  let letters := l.takeWhile isAlphaAscii
  let r1 := l.dropWhile isAlphaAscii
  if letters.length < 2 then none
  else
    let digits := r1.takeWhile isDigit
    if digits.isEmpty then none else some ⟨letters ++ digits⟩

/-- Lazy gap of `approved.*?([A-Z]{2,}\d+)`: scan forward from the end of
`approved`, never across a newline (`.` does not match one). -/
def authPat3Scan : List Char → Option String
  | [] => none
  | c :: cs =>
    match authLettersDigits (c :: cs) with
    | some s => some s
    | none => if c = '\n' then none else authPat3Scan cs

def authPat3 (l : List Char) : Option String :=
  (matchLitCI "approved".data l).bind authPat3Scan

def findAuthorizationNumber (l : List Char) : Option String :=
  match searchSuffixes authPat1 l with
  | some r => some r
  | none =>
    match searchSuffixes authPat2 l with
    | some r => some r
    | none => searchSuffixes authPat3 l

/-- Keyword-priority status classification over the lowercased text. -/
def fallbackStatus (text_lower : String) : String :=
  if ["approved", "authorization approved", "auth approved"].any
      (fun w => containsSub w text_lower) then "approved"
  else if ["denied", "not eligible", "expired", "inactive", "denial"].any
      (fun w => containsSub w text_lower) then "denied"
  else if ["pending", "under review", "need more info", "reviewing"].any
      (fun w => containsSub w text_lower) then "pending"
  else "unknown"

def digitsToNat (l : List Char) : Nat :=
  l.foldl (fun acc c => acc * 10 + (c.toNat - 48)) 0

/-- `(\d+)\s*(?:business\s*)?days?` at the current position. -/
def turnaroundPat1 (l : List Char) : Option Nat :=
  let digits := l.takeWhile isDigit
  let r1 := l.dropWhile isDigit
  if digits.isEmpty then none
  else
    let r2 := r1.dropWhile isPyWhitespace
    let r3 := match matchLitCI "business".data r2 with
      | some rb => rb.dropWhile isPyWhitespace
      | none => r2
    match matchLitCI "day".data r3 with
    | some _ => some (digitsToNat digits)
    | none => none

/-- `within\s*(\d+)\s*days?` at the current position. -/
def turnaroundPat2 (l : List Char) : Option Nat := do
  let r1 ← matchLitCI "within".data l
  let r2 := r1.dropWhile isPyWhitespace
  let digits := r2.takeWhile isDigit
  if digits.isEmpty then none
  else
    let r3 := (r2.dropWhile isDigit).dropWhile isPyWhitespace
    match matchLitCI "day".data r3 with
    | some _ => some (digitsToNat digits)
    | none => none

def searchSuffixesNat (f : List Char → Option Nat) : List Char → Option Nat
  | [] => f []
  | c :: cs =>
    match f (c :: cs) with
    | some r => some r
    | none => searchSuffixesNat f cs

def findTurnaroundDays (l : List Char) : Option Nat :=
  match searchSuffixesNat turnaroundPat1 l with
  | some r => some r
  | none => searchSuffixesNat turnaroundPat2 l

/-- `_fallback_extraction`: ordered pattern rules over the transcript text;
keys are inserted in source order; never raises (it is a total function). -/
def fallbackExtraction (conversation_text : String) : Dict :=
  let l := conversation_text.data
  (match findRepresentativeName l with
   | some n => [("representative_name", Json.str n)]
   | none => []) ++
  (match findReferenceNumber l with
   | some x => [("reference_number", Json.str x)]
   | none => []) ++
  (match findAuthorizationNumber l with
   | some x => [("authorization_number", Json.str x)]
   | none => []) ++
  [("authorization_status", Json.str (fallbackStatus (strLower conversation_text)))] ++
  (match findTurnaroundDays l with
   | some n => [("turnaround_days", Json.num (Int.ofNat n))]
   | none => [])

/-- Model of `re.search(r'\{.*\}', text, re.DOTALL)`: the span from the first
opening brace to the last closing brace after it. -/
def findJsonSpan (s : String) : Option String :=
  let l := s.data
  match l.findIdx? (fun c => c = '{'), l.reverse.findIdx? (fun c => c = '}') with
  | some i, some jr =>
    let j := l.length - 1 - jr
    if i < j then some ⟨(l.drop i).take (j - i + 1)⟩ else none
  | _, _ => none

def countChar (c : Char) (l : List Char) : Nat := (l.filter (fun x => x = c)).length

/-- The body of the `try` block of `_extract_entities_with_llm`; `loads` is
`json.loads` (`none` = `JSONDecodeError`); `.error` marks an exception
escaping the block into its `except` clauses. -/
def extractTryBlock (invoke : Except PyErr String) (loads : String → Option Json)
    (conversation : String) : Except PyErr Json :=
  match invoke with
  | .error e => .error e
  | .ok response_text =>
    if response_text.length < 100 then .ok (Json.obj (fallbackExtraction conversation))
    else
      match findJsonSpan response_text with
      | none => .ok (Json.obj (fallbackExtraction conversation))
      | some json_str =>
        match loads json_str with
        | some data =>
          if !jTruthy data then .ok (Json.obj (fallbackExtraction conversation))
          else
            match jLen data with
            | some n =>
              if n == 0 then .ok (Json.obj (fallbackExtraction conversation))
              else .ok data
            | none => .error .typeError
        | none =>
          let opens := countChar '{' json_str.data
          let closes := countChar '}' json_str.data
          if closes < opens then
            let repaired := json_str ++ ⟨List.replicate (opens - closes) '}'⟩
            match loads repaired with
            | some data2 =>
              if jTruthy data2 then .ok data2
              else .ok (Json.obj (fallbackExtraction conversation))
            | none => .ok (Json.obj (fallbackExtraction conversation))
          else .ok (Json.obj (fallbackExtraction conversation))

/-- `_extract_entities_with_llm` with its `except JSONDecodeError` /
`except Exception` clauses, both of which answer with the fallback. -/
def extractEntitiesWithLLM (invoke : Except PyErr String) (loads : String → Option Json)
    (conversation : String) : Except PyErr Json :=
  match extractTryBlock invoke loads conversation with
  | .ok d => .ok d
  | .error _ => .ok (Json.obj (fallbackExtraction conversation))

/-! ## Record builder (`_build_prior_auth_record` and friends) -/

/-- Python `int(value)` for the JSON values the pipeline sees. -/
def strToIntOpt (s : String) : Option Int :=
  let l := s.data.dropWhile isPyWhitespace
  let signAndRest := match l with
    | '-' :: rest => (true, rest)
    | '+' :: rest => (false, rest)
    | _ => (false, l)
  let digits := signAndRest.2.takeWhile isDigit
  let rest := (signAndRest.2.dropWhile isDigit).dropWhile isPyWhitespace
  if digits.isEmpty || !rest.isEmpty then none
  else if signAndRest.1 then some (-(Int.ofNat (digitsToNat digits)))
  else some (Int.ofNat (digitsToNat digits))

def jsonToIntCoerce : Json → Option Int
  | .num n => some n
  | .str s => strToIntOpt s
  | .bool b => some (if b then 1 else 0)
  | _ => none

/-- `_parse_date` on a raw entity/config value: falsy values give `None`;
strings try ISO then the fixed format list; other types end as `None`
(`fromisoformat` raises `TypeError`, caught, and `str(value)` of a JSON
scalar matches none of the separator-based formats). -/
def parseDateSlashes (l : List Char) : Option Date := do
  let parts := (⟨l⟩ : String).splitOn "/"
  match parts.map String.data with
  | [mp, dp, yp] =>
    if !mp.isEmpty && mp.all isDigit && mp.length ≤ 2 &&
       !dp.isEmpty && dp.all isDigit && dp.length ≤ 2 &&
       yp.length == 4 && yp.all isDigit then
      let m := digitsToNat mp
      let d := digitsToNat dp
      let y := digitsToNat yp
      if 1 ≤ m ∧ m ≤ 12 ∧ 1 ≤ d ∧ d ≤ 31 then some ⟨y, m, d⟩ else none
    else none
  | _ => none

def parseDateDashes (l : List Char) : Option Date := do
  let parts := (⟨l⟩ : String).splitOn "-"
  match parts.map String.data with
  | [ap, bp, cp] =>
    if !ap.isEmpty && ap.all isDigit && !bp.isEmpty && bp.all isDigit &&
       !cp.isEmpty && cp.all isDigit then
      let a := digitsToNat ap
      let b := digitsToNat bp
      let c := digitsToNat cp
      if ap.length == 4 then
        -- %Y-%m-%d
        if 1 ≤ b ∧ b ≤ 12 ∧ 1 ≤ c ∧ c ≤ 31 then some ⟨a, b, c⟩ else none
      else if cp.length == 4 then
        -- %m-%d-%Y
        if 1 ≤ a ∧ a ≤ 12 ∧ 1 ≤ b ∧ b ≤ 31 then some ⟨c, a, b⟩ else none
      else none
    else none
  | _ => none

def monthNameNum (w : String) : Option Nat :=
  let s := strLower w
  if s = "january" || s = "jan" then some 1
  else if s = "february" || s = "feb" then some 2
  else if s = "march" || s = "mar" then some 3
  else if s = "april" || s = "apr" then some 4
  else if s = "may" then some 5
  else if s = "june" || s = "jun" then some 6
  else if s = "july" || s = "jul" then some 7
  else if s = "august" || s = "aug" then some 8
  else if s = "september" || s = "sep" then some 9
  else if s = "october" || s = "oct" then some 10
  else if s = "november" || s = "nov" then some 11
  else if s = "december" || s = "dec" then some 12
  else none

/-- `%B %d, %Y` and `%b %d, %Y`. -/
def parseDateMonthName (s : String) : Option Date := do
  match s.splitOn " " with
  | [mw, dw, yw] =>
    let m ← monthNameNum mw
    match dw.data.reverse with
    | ',' :: drev =>
      let dp := drev.reverse
      let yp := yw.data
      if !dp.isEmpty && dp.all isDigit && dp.length ≤ 2 && yp.length == 4 &&
         yp.all isDigit then
        let d := digitsToNat dp
        if 1 ≤ d ∧ d ≤ 31 then some ⟨digitsToNat yp, m, d⟩ else none
      else none
    | _ => none
  | _ => none

def parseDateStr (s : String) : Option Date :=
  match Date.fromisoformat s with
  | some d => some d
  | none =>
    match parseDateDashes s.data with
    | some d => some d
    | none =>
      match parseDateSlashes s.data with
      | some d => some d
      | none => parseDateMonthName s

def parse_date (o : Option Json) : Option Date :=
  match o with
  | none => none
  | some v =>
    if !jTruthy v then none
    else
      match v with
      | .str s => parseDateStr s
      | _ => none

def extract_patient_info (entities : Dict) (config : Option Dict) : PatientInfo :=
  match config with
  | some cfg =>
    if !cfg.isEmpty && dictHasKey cfg "patient_name" then
      { name := (jAsOptStr (dictGet cfg "patient_name")).getD "Unknown",
        date_of_birth := parse_date (dictGet cfg "patient_dob"),
        member_id := jAsOptStr (dictGet cfg "member_id") }
    else { name := "Unknown Patient" }
  | none => { name := "Unknown Patient" }

def extract_provider_info (entities : Dict) (config : Option Dict) : ProviderInfo :=
  match config with
  | some cfg =>
    if !cfg.isEmpty then
      { name := (jAsOptStr (dictGet cfg "provider_name")).getD "Unknown Provider",
        npi := jAsOptStr (dictGet cfg "provider_npi") }
    else { name := "Unknown Provider" }
  | none => { name := "Unknown Provider" }

def extract_procedure_info (entities : Dict) (config : Option Dict) : ProcedureInfo :=
  match config with
  | some cfg =>
    if !cfg.isEmpty then
      { cpt_code := (jAsOptStr (dictGet cfg "cpt_code")).getD "UNKNOWN",
        description := jAsOptStr (dictGet cfg "procedure_description"),
        icd_code := jAsOptStr (dictGet cfg "icd_code"),
        icd_description := jAsOptStr (dictGet cfg "diagnosis_description") }
    else { cpt_code := "UNKNOWN" }
  | none => { cpt_code := "UNKNOWN" }

def statusMapGet (s : String) : AuthorizationStatus :=
  if s = "approved" then .APPROVED
  else if s = "denied" then .DENIED
  else if s = "pending" then .PENDING
  else if s = "peer_to_peer_required" then .PEER_TO_PEER_REQUIRED
  else if s = "additional_info_required" then .ADDITIONAL_INFO_REQUIRED
  else .UNKNOWN

/-- Python `raw.lower()`: only a string has that attribute; anything else
(`None` included) raises `AttributeError`. -/
def jsonLowerStr : Json → Except PyErr String
  | .str s => .ok (strLower s)
  | _ => .error .attributeError

/-- `_extract_authorization_info`: `entities.get('authorization_status',
'unknown').lower()` — the default only covers an absent key, so a present
non-string value (for example JSON `null`) raises. -/
def extract_authorization_info (entities : Dict) : Except PyErr AuthorizationInfo :=
  match jsonLowerStr (dictGetD entities "authorization_status" (.str "unknown")) with
  | .error e => .error e
  | .ok status_str =>
    .ok { status := statusMapGet status_str,
          reference_number := jAsOptStr (dictGet entities "reference_number"),
          authorization_number := jAsOptStr (dictGet entities "authorization_number"),
          valid_from := parse_date (dictGet entities "valid_from_date"),
          valid_to := parse_date (dictGet entities "valid_to_date"),
          notes := jAsOptStr (dictGet entities "notes") }

def extract_representative_info (entities : Dict) : RepresentativeInfo :=
  { name := jAsOptStr (dictGet entities "representative_name"),
    id := jAsOptStr (dictGet entities "representative_id"),
    department := jAsOptStr (dictGet entities "department") }

def extract_documentation_info (entities : Dict) : DocumentationRequirements :=
  { required_documents := jAsStrList (dictGet entities "documentation_required"),
    submission_method := jAsOptStr (dictGet entities "submission_method"),
    fax_number := jAsOptStr (dictGet entities "fax_number"),
    portal_url := jAsOptStr (dictGet entities "portal_url"),
    submission_deadline := parse_date (dictGet entities "submission_deadline"),
    special_forms := jAsStrList (dictGet entities "special_forms") }

/-- `_extract_timeline_info`; `today` is `date.today()`.  The source stores
the raw turnaround value; the typed embedding keeps it when it is an int. -/
def extract_timeline_info (today : Date) (entities : Dict) : TimelineInfo :=
  let turnaround := dictGet entities "turnaround_days"
  let expected := match turnaround with
    | some v =>
      if jTruthy v then
        match jsonToIntCoerce v with
        | some n => some (today.addDays n)
        | none => none
      else none
    | none => none
  { standard_turnaround_days := jAsOptInt turnaround,
    expedited_requested := jAsBool (dictGet entities "expedited_requested"),
    expected_decision_date := expected }

def determine_call_outcome (auth : AuthorizationInfo) (entities : Dict) : CallOutcome :=
  if auth.status == .APPROVED && truthyS auth.reference_number then .SUCCESS
  else if auth.status != .UNKNOWN && truthyS auth.reference_number then .PARTIAL
  else if truthyS auth.reference_number || 3 < entities.length then .PARTIAL
  else .FAILED

/-- `_build_prior_auth_record`: patient, provider and procedure come from the
caller-supplied `agent_config` only; authorization, representative,
documentation and timeline come from the extracted entities. -/
def build_prior_auth_record (today : Date) (now : DateTime) (call_id : String)
    (conversation_history : List String) (extracted_entities : Dict)
    (agent_config : Option Dict) : Except PyErr PriorAuthRecord :=
  let patient := extract_patient_info extracted_entities agent_config
  let provider := extract_provider_info extracted_entities agent_config
  let procedure := extract_procedure_info extracted_entities agent_config
  match extract_authorization_info extracted_entities with
  | .error e => .error e
  | .ok auth =>
    let insurance := match agent_config with
      | some cfg =>
        if !cfg.isEmpty then
          (jAsOptStr (dictGet cfg "insurance_company")).getD "Unknown Insurance"
        else "Unknown Insurance"
      | none => "Unknown Insurance"
    .ok { call_id := call_id, call_date := now, insurance_company := insurance,
          patient := patient, provider := provider, procedure := procedure,
          authorization := auth,
          representative := extract_representative_info extracted_entities,
          documentation := extract_documentation_info extracted_entities,
          timeline := extract_timeline_info today extracted_entities,
          call_outcome := determine_call_outcome auth extracted_entities,
          conversation_transcript := conversation_history,
          extracted_entities := extracted_entities,
          created_at := now, updated_at := now }

/-! ## Well-formedness predicates used by the theorems -/

def optDateValid : Option Date → Prop
  | none => True
  | some d => d.valid

instance : (o : Option Date) → Decidable (optDateValid o)
  | none => isTrue trivial
  | some d => (inferInstance : Decidable d.valid)

/-- Every date-valued field of the record holds a value a Python `date` /
`datetime` can hold. -/
def PriorAuthRecord.wellFormedDates (r : PriorAuthRecord) : Prop :=
  r.call_date.valid ∧ r.created_at.valid ∧ r.updated_at.valid ∧
  optDateValid r.patient.date_of_birth ∧ optDateValid r.procedure.proposed_date ∧
  optDateValid r.authorization.valid_from ∧ optDateValid r.authorization.valid_to ∧
  optDateValid r.documentation.submission_deadline ∧
  optDateValid r.timeline.expected_decision_date ∧ optDateValid r.timeline.follow_up_date

instance (r : PriorAuthRecord) : Decidable r.wellFormedDates := by
  unfold PriorAuthRecord.wellFormedDates; infer_instance

/-- Descending order on path strings (Python `sorted(..., reverse=True)`). -/
def descStr (a b : String) : Prop := pyStrLt a b = false

/-- Filename component of a full path. -/
def pathFilename (p : String) : String :=
  ⟨(p.data.reverse.takeWhile (fun c => c ≠ '/')).reverse⟩

/-- The save timestamp embedded in a path's filename, as `list_records`
itself parses it. -/
def embeddedStamp (p : String) : Option Date :=
  parseYmd8 (headUnderscore (stemList (pathFilename p).data))

def exceptOkD (x : Except PyErr PriorAuthRecord) (dflt : PriorAuthRecord) :
    PriorAuthRecord :=
  match x with
  | .ok r => r
  | .error _ => dflt

/-! ## Concrete inputs used by witnesses and counterexamples -/

def dt0 : DateTime := ⟨2025, 1, 15, 12, 30, 45, 0⟩

def d0 : Date := ⟨2025, 1, 15⟩

def dummyRec : PriorAuthRecord :=
  { call_id := "DUMMY", call_date := dt0, insurance_company := "None",
    patient := { name := "X" }, provider := { name := "X" },
    procedure := { cpt_code := "00000" }, created_at := dt0, updated_at := dt0 }

/-- A record that arrives with outcome SUCCESS, status UNKNOWN and a
reference number: validation finds no errors and the outcome survives the
classifier untouched. -/
def c1Rec : PriorAuthRecord :=
  { call_id := "CALL-C1", call_date := dt0, insurance_company := "Acme Health",
    patient := { name := "John Doe" }, provider := { name := "Dr Smith" },
    procedure := { cpt_code := "12345" },
    authorization := { status := .UNKNOWN, reference_number := some "REF-1" },
    call_outcome := .SUCCESS, created_at := dt0, updated_at := dt0 }

/-- A record with an authorization number but no reference number and a
known (DENIED) status. -/
def c2Rec : PriorAuthRecord :=
  { call_id := "CALL-C2", call_date := dt0, insurance_company := "Acme Health",
    patient := { name := "John Doe" }, provider := { name := "Dr Smith" },
    procedure := { cpt_code := "12345" },
    authorization := { status := .DENIED, authorization_number := some "A-1" },
    created_at := dt0, updated_at := dt0 }

/-- A DENIED record with a reference number (meets the amended PARTIAL
conditions). -/
def c2wRec : PriorAuthRecord :=
  { call_id := "CALL-C2W", call_date := dt0, insurance_company := "Acme Health",
    patient := { name := "John Doe" }, provider := { name := "Dr Smith" },
    procedure := { cpt_code := "12345" },
    authorization := { status := .DENIED, reference_number := some "REF-2",
                       notes := some "medical necessity not shown" },
    created_at := dt0, updated_at := dt0 }

def c6Rec : PriorAuthRecord :=
  { call_id := "CALL-C6", call_date := dt0, insurance_company := "Acme Health",
    patient := { name := "John Doe" }, provider := { name := "Dr Smith" },
    procedure := { cpt_code := "12345" },
    authorization := { status := .PEER_TO_PEER_REQUIRED,
                       reference_number := some "REF-6" },
    representative := { name := some "Jane Roe" },
    created_at := dt0, updated_at := dt0 }

def c7Rec : PriorAuthRecord :=
  { call_id := "CALL-C7", call_date := ⟨2025, 1, 14, 9, 5, 7, 123456⟩,
    insurance_company := "Acme Health",
    patient := { name := "John Doe", date_of_birth := some ⟨1990, 4, 2⟩,
                 member_id := some "M-77" },
    provider := { name := "Dr Smith", npi := some "1234567890" },
    procedure := { cpt_code := "12345", description := some "MRI lumbar spine",
                   icd_code := some "M54.5", proposed_date := some ⟨2025, 2, 20⟩ },
    authorization := { status := .APPROVED, reference_number := some "REF-7",
                       authorization_number := some "AUTH-556",
                       valid_from := some ⟨2025, 1, 20⟩, valid_to := some ⟨2025, 7, 20⟩,
                       approved_units := some 2, notes := some "approved per policy" },
    representative := { name := some "Jane Roe", id := some "REP-1",
                        phone := some "1-800-555-1234" },
    documentation := { required_documents := ["medical records"],
                       submission_method := some "fax",
                       fax_number := some "800-555-9999",
                       submission_deadline := some ⟨2025, 2, 1⟩ },
    timeline := { standard_turnaround_days := some 5,
                  expected_decision_date := some ⟨2025, 1, 22⟩ },
    call_outcome := .SUCCESS,
    conversation_transcript := ["agent: hello", "rep: approved"],
    extracted_entities := [("authorization_status", Json.str "approved")],
    missing_fields := [], validation_errors := [], validation_warnings := [],
    next_steps := ["schedule procedure"],
    created_at := ⟨2025, 1, 14, 9, 6, 0, 0⟩, updated_at := ⟨2025, 1, 14, 9, 6, 0, 0⟩ }

def c8Store : BucketStore :=
  { approved := ["20250102_000000_b.json"], pending := ["20250101_000000_a.json"],
    denied := [], failed := [] }

def c9Entities1 : Dict := []

def c9Entities2 : Dict :=
  [("authorization_status", Json.str "approved"),
   ("reference_number", Json.str "REF-9"),
   ("representative_name", Json.str "Jane Roe"),
   ("turnaround_days", Json.num 5)]

def c9Config : Option Dict :=
  some [("patient_name", Json.str "John Doe"), ("patient_dob", Json.str "1990-04-02"),
        ("member_id", Json.str "M-77"), ("provider_name", Json.str "Dr Smith"),
        ("provider_npi", Json.str "1234567890"), ("cpt_code", Json.str "12345"),
        ("insurance_company", Json.str "Acme Health")]

def c9Rec1 : PriorAuthRecord :=
  exceptOkD (build_prior_auth_record d0 dt0 "CALL-C9" ["t"] c9Entities1 c9Config) dummyRec

def c9Rec2 : PriorAuthRecord :=
  exceptOkD (build_prior_auth_record d0 dt0 "CALL-C9" ["t"] c9Entities2 c9Config) dummyRec

end RCM

/-! # Theorems -/

namespace RCM

theorem digitVal_digitChar (d : Nat) (h : d < 10) : digitVal (digitChar d) = some d := by
  interval_cases d <;> rfl

theorem digitVal_digitChar_mod (n : Nat) : digitVal (digitChar (n % 10)) = some (n % 10) :=
  digitVal_digitChar _ (Nat.mod_lt _ (by norm_num))

/-- Python round trip: `date.fromisoformat(d.isoformat())` returns `d`. -/
theorem date_fromiso_iso (d : Date) (h : d.valid) :
    Date.fromisoformat d.isoformat = some d := by
  obtain ⟨y, m, dy⟩ := d
  simp only [Date.valid] at h
  obtain ⟨h1, h2, h3, h4, h5, h6⟩ := h
  simp [Date.fromisoformat, Date.isoformat, pad4, pad2, Date.fromisoList, parse4,
    parse2, digitVal_digitChar_mod, Date.mk.injEq]
  omega

/-- Python round trip for datetimes, covering both isoformat shapes. -/
theorem datetime_fromiso_iso (t : DateTime) (h : t.valid) :
    DateTime.fromisoformat t.isoformat = some t := by
  obtain ⟨y, m, dy, hh, mi, s, u⟩ := t
  simp only [DateTime.valid] at h
  obtain ⟨h1, h2, h3, h4, h5, h6, h7, h8, h9, h10⟩ := h
  by_cases hu : u = 0
  · subst hu
    simp [DateTime.fromisoformat, DateTime.isoformat, pad4, pad2, pad6,
      DateTime.fromisoList, DateTime.fromisoTail, parse4, parse2, parse6,
      digitVal_digitChar_mod, DateTime.mk.injEq]
    omega
  · simp [DateTime.fromisoformat, DateTime.isoformat, pad4, pad2, pad6, hu,
      DateTime.fromisoList, DateTime.fromisoTail, parse4, parse2, parse6,
      digitVal_digitChar_mod, DateTime.mk.injEq]
    omega

theorem mk_cons_ne_empty (c : Char) (l : List Char) : (⟨c :: l⟩ : String) ≠ "" := by
  intro h
  have h2 : c :: l = ("" : String).data := congrArg String.data h
  simp at h2

theorem isoformat_bne_empty (d : Date) : (Date.isoformat d != "") = true := by
  simp only [bne_iff_ne, ne_eq]
  simp only [Date.isoformat, pad4, pad2, List.cons_append]
  exact mk_cons_ne_empty _ _

theorem jTruthy_isoformat (d : Date) : jTruthy (Json.str d.isoformat) = true := by
  simp [jTruthy, isoformat_bne_empty]

/-! ### Field-level serialization round trips -/

theorem parseOptStrField_rt (o : Option String) :
    parseOptStrField (some (optStrJson o)) = some o := by
  cases o <;> rfl

theorem parseOptIntField_rt (o : Option Int) :
    parseOptIntField (some (optIntJson o)) = some o := by
  cases o <;> rfl

theorem parseOptDateField_rt (o : Option Date) (h : optDateValid o) :
    parseOptDateField (some (optDateJson o)) = some o := by
  cases o with
  | none => rfl
  | some d =>
    simp [optDateJson, parseOptDateField, jTruthy_isoformat, date_fromiso_iso d h]

theorem strListFromJson_rt (l : List String) :
    strListFromJson (l.map Json.str) = some l := by
  induction l with
  | nil => rfl
  | cons x xs ih => simp [strListFromJson, asStr, ih]

theorem parseStrListField_rt (l : List String) :
    parseStrListField (some (.arr (l.map Json.str))) = some l := by
  simp [parseStrListField, strListFromJson_rt]

theorem parseBoolField_rt (b : Bool) : parseBoolField (some (.bool b)) = some b := rfl

theorem parseDateTimeField_rt (t : DateTime) (h : t.valid) :
    parseDateTimeField (some (.str t.isoformat)) = some t := by
  simp [parseDateTimeField, datetime_fromiso_iso t h]

theorem fromValue_value_status (s : AuthorizationStatus) :
    AuthorizationStatus.fromValue s.value = some s := by
  cases s <;> rfl

theorem fromValue_value_outcome (o : CallOutcome) :
    CallOutcome.fromValue o.value = some o := by
  cases o <;> rfl

/-! ### Structure-level serialization round trips -/

theorem parsePatientInfo_rt (p : PatientInfo) (h : optDateValid p.date_of_birth) :
    parsePatientInfo p.to_dict = some p := by
  obtain ⟨nm, dob, mid⟩ := p
  simp only [optDateValid] at h
  simp [PatientInfo.to_dict, parsePatientInfo, keysAllowed, dictGet, asStr,
    parseOptStrField_rt, parseOptDateField_rt _ h]

theorem parseProviderInfo_rt (p : ProviderInfo) : parseProviderInfo p.to_dict = some p := by
  obtain ⟨nm, npi, ph, fx⟩ := p
  simp [ProviderInfo.to_dict, parseProviderInfo, keysAllowed, dictGet, asStr,
    parseOptStrField_rt]

theorem parseProcedureInfo_rt (p : ProcedureInfo) (h : optDateValid p.proposed_date) :
    parseProcedureInfo p.to_dict = some p := by
  obtain ⟨cpt, de, icd, icdD, pd, urg⟩ := p
  simp only [optDateValid] at h
  simp [ProcedureInfo.to_dict, parseProcedureInfo, keysAllowed, dictGet, asStr,
    parseOptStrField_rt, parseOptDateField_rt _ h]

theorem parseAuthorizationInfo_rt (a : AuthorizationInfo)
    (hf : optDateValid a.valid_from) (ht : optDateValid a.valid_to) :
    parseAuthorizationInfo a.to_dict = some a := by
  obtain ⟨st, ref, an, vf, vt, units, notes⟩ := a
  simp only [optDateValid] at hf ht
  cases vf with
  | none =>
    cases vt with
    | none =>
      simp [AuthorizationInfo.to_dict, parseAuthorizationInfo, keysAllowed, dictGet,
        asStr, parseOptStrField_rt, parseOptIntField_rt, fromValue_value_status,
        parseOptDateField]
    | some dt =>
      simp [AuthorizationInfo.to_dict, parseAuthorizationInfo, keysAllowed, dictGet,
        asStr, parseOptStrField_rt, parseOptIntField_rt, fromValue_value_status,
        parseOptDateField, jTruthy_isoformat, date_fromiso_iso _ ht]
  | some df =>
    cases vt with
    | none =>
      simp [AuthorizationInfo.to_dict, parseAuthorizationInfo, keysAllowed, dictGet,
        asStr, parseOptStrField_rt, parseOptIntField_rt, fromValue_value_status,
        parseOptDateField, jTruthy_isoformat, date_fromiso_iso _ hf]
    | some dt =>
      simp [AuthorizationInfo.to_dict, parseAuthorizationInfo, keysAllowed, dictGet,
        asStr, parseOptStrField_rt, parseOptIntField_rt, fromValue_value_status,
        parseOptDateField, jTruthy_isoformat, date_fromiso_iso _ hf,
        date_fromiso_iso _ ht]

theorem parseRepresentativeInfo_rt (p : RepresentativeInfo) :
    parseRepresentativeInfo p.to_dict = some p := by
  obtain ⟨nm, i, ph, ext, dept⟩ := p
  simp [RepresentativeInfo.to_dict, parseRepresentativeInfo, keysAllowed, dictGet,
    parseOptStrField_rt]

theorem parseDocumentationRequirements_rt (p : DocumentationRequirements)
    (h : optDateValid p.submission_deadline) :
    parseDocumentationRequirements p.to_dict = some p := by
  obtain ⟨docs, sm, fx, pu, sd, sf⟩ := p
  simp only [optDateValid] at h
  simp [DocumentationRequirements.to_dict, parseDocumentationRequirements, keysAllowed,
    dictGet, parseOptStrField_rt, parseOptDateField_rt _ h, parseStrListField_rt]

theorem parseTimelineInfo_rt (p : TimelineInfo)
    (h1 : optDateValid p.expected_decision_date) (h2 : optDateValid p.follow_up_date) :
    parseTimelineInfo p.to_dict = some p := by
  obtain ⟨td, er, ea, edd, fu⟩ := p
  simp only [optDateValid] at h1 h2
  simp [TimelineInfo.to_dict, parseTimelineInfo, keysAllowed, dictGet,
    parseOptIntField_rt, parseBoolField_rt, parseOptDateField_rt _ h1,
    parseOptDateField_rt _ h2]

/-! ### Validator lemmas -/

theorem validate_call_outcome_eq (today : Date) (r : PriorAuthRecord) :
    (validate today r).call_outcome =
      updateCallOutcome ((completenessFindings r).2.1 ++ (businessFindings today r).1)
        r.authorization r.call_outcome := rfl

theorem validate_errors_eq (today : Date) (r : PriorAuthRecord) :
    (validate today r).validation_errors =
      (completenessFindings r).2.1 ++ (businessFindings today r).1 := rfl

theorem updateCallOutcome_idem (E : List String) (auth : AuthorizationInfo)
    (o : CallOutcome) :
    updateCallOutcome E auth (updateCallOutcome E auth o) = updateCallOutcome E auth o := by
  unfold updateCallOutcome
  cases E <;> cases o <;> split_ifs <;> simp_all

theorem validate_unfold (today : Date) (r : PriorAuthRecord) :
    validate today r =
      { r with missing_fields := (completenessFindings r).1,
               validation_errors := (completenessFindings r).2.1 ++
                 (businessFindings today r).1,
               validation_warnings := (completenessFindings r).2.2 ++
                 formatWarnings r ++ (businessFindings today r).2,
               next_steps := nextStepsFor r (completenessFindings r).1
                 ((completenessFindings r).2.1 ++ (businessFindings today r).1),
               call_outcome := updateCallOutcome ((completenessFindings r).2.1 ++
                 (businessFindings today r).1) r.authorization r.call_outcome } := rfl

/-- The completeness phase reads only the four sub-structures below. -/
theorem completenessFindings_congr (r s : PriorAuthRecord)
    (ha : r.authorization = s.authorization)
    (hrep : r.representative = s.representative)
    (hdoc : r.documentation = s.documentation)
    (htl : r.timeline = s.timeline) :
    completenessFindings r = completenessFindings s := by
  unfold completenessFindings FieldPath.present
  simp only [ha, hrep, hdoc, htl]

theorem formatWarnings_congr (r s : PriorAuthRecord)
    (hproc : r.procedure = s.procedure) (hprov : r.provider = s.provider)
    (hdoc : r.documentation = s.documentation)
    (ha : r.authorization = s.authorization) :
    formatWarnings r = formatWarnings s := by
  unfold formatWarnings
  simp only [hproc, hprov, hdoc, ha]

theorem businessFindings_congr (today : Date) (r s : PriorAuthRecord)
    (ha : r.authorization = s.authorization)
    (hdoc : r.documentation = s.documentation)
    (hproc : r.procedure = s.procedure) (htl : r.timeline = s.timeline)
    (hrep : r.representative = s.representative) :
    businessFindings today r = businessFindings today s := by
  unfold businessFindings
  simp only [ha, hdoc, hproc, htl, hrep]

theorem nextStepsFor_congr (r s : PriorAuthRecord) (missing errors : List String)
    (ha : r.authorization = s.authorization)
    (hdoc : r.documentation = s.documentation)
    (htl : r.timeline = s.timeline)
    (hrep : r.representative = s.representative) :
    nextStepsFor r missing errors = nextStepsFor s missing errors := by
  unfold nextStepsFor
  simp only [ha, hdoc, htl, hrep]

/-- C1 (amended): after validation the outcome is SUCCESS iff the success
criteria hold (APPROVED, truthy authorization number, no validation errors),
or the record arrived with outcome SUCCESS and takes the classifier's
fall-through (no errors, truthy reference number, status UNKNOWN). -/
theorem validated_outcome_success_iff (today : Date) (r : PriorAuthRecord) :
    (validate today r).call_outcome = CallOutcome.SUCCESS ↔
      ((r.authorization.status = .APPROVED ∧
        truthyS r.authorization.authorization_number = true ∧
        (validate today r).validation_errors = []) ∨
       (r.call_outcome = .SUCCESS ∧ r.authorization.status = .UNKNOWN ∧
        truthyS r.authorization.reference_number = true ∧
        (validate today r).validation_errors = [])) := by
  rw [validate_call_outcome_eq, validate_errors_eq]
  generalize (completenessFindings r).2.1 ++ (businessFindings today r).1 = E
  cases E <;> cases hs : r.authorization.status <;>
    by_cases hT : truthyS r.authorization.authorization_number = true <;>
    by_cases hR : truthyS r.authorization.reference_number = true <;>
    cases ho : r.call_outcome <;>
    simp_all [updateCallOutcome]

/-- C1 as frozen is false: a record arriving as SUCCESS with status UNKNOWN
and a reference number keeps outcome SUCCESS though it is not APPROVED. -/
theorem validated_outcome_success_counterexample :
    (validate d0 c1Rec).call_outcome = CallOutcome.SUCCESS ∧
    c1Rec.authorization.status ≠ AuthorizationStatus.APPROVED := by
  constructor
  · decide
  · decide

/-- C2 (amended): below the success criteria, PARTIAL needs a truthy
reference number (an authorization number alone does not count) and a known
status; a missing reference number forces FAILED; reference present with
status UNKNOWN leaves the incoming outcome, demoted from SUCCESS to PARTIAL
when errors exist. -/
theorem validated_outcome_partial_failed (today : Date) (r : PriorAuthRecord)
    (hns : ¬(r.authorization.status = .APPROVED ∧
      truthyS r.authorization.authorization_number = true ∧
      (validate today r).validation_errors = [])) :
    (truthyS r.authorization.reference_number = true →
      r.authorization.status ≠ .UNKNOWN →
      (validate today r).call_outcome = .PARTIAL) ∧
    (truthyS r.authorization.reference_number = false →
      (validate today r).call_outcome = .FAILED) ∧
    (truthyS r.authorization.reference_number = true →
      r.authorization.status = .UNKNOWN →
      (validate today r).validation_errors ≠ [] → r.call_outcome = .SUCCESS →
      (validate today r).call_outcome = .PARTIAL) ∧
    (truthyS r.authorization.reference_number = true →
      r.authorization.status = .UNKNOWN →
      ((validate today r).validation_errors = [] ∨ r.call_outcome ≠ .SUCCESS) →
      (validate today r).call_outcome = r.call_outcome) := by
  simp only [validate_call_outcome_eq, validate_errors_eq] at hns ⊢
  revert hns
  generalize (completenessFindings r).2.1 ++ (businessFindings today r).1 = E
  intro hns
  cases E <;> cases hs : r.authorization.status <;>
    by_cases hT : truthyS r.authorization.authorization_number = true <;>
    by_cases hR : truthyS r.authorization.reference_number = true <;>
    cases ho : r.call_outcome <;>
    simp_all [updateCallOutcome]

/-- C2 as frozen is false: an authorization number with a known status but
no reference number yields FAILED, not PARTIAL. -/
theorem validated_outcome_partial_counterexample :
    truthyS c2Rec.authorization.authorization_number = true ∧
    c2Rec.authorization.status ≠ AuthorizationStatus.UNKNOWN ∧
    c2Rec.authorization.status ≠ AuthorizationStatus.APPROVED ∧
    (validate d0 c2Rec).call_outcome = CallOutcome.FAILED := by
  refine ⟨by decide, by decide, by decide, by decide⟩

/-- C3: the derived arrays are recomputed from scratch (junk left in them
changes nothing), and a second validation pass is the identity on the result
of the first. -/
theorem validate_idempotent_and_recomputes (today : Date) (r : PriorAuthRecord)
    (m e w n : List String) :
    validate today
        { r with missing_fields := m, validation_errors := e,
                 validation_warnings := w, next_steps := n } = validate today r ∧
    validate today (validate today r) = validate today r := by
  constructor
  · rfl
  · have hc : completenessFindings (validate today r) = completenessFindings r :=
      completenessFindings_congr _ _ rfl rfl rfl rfl
    have hb : businessFindings today (validate today r) = businessFindings today r :=
      businessFindings_congr today _ _ rfl rfl rfl rfl rfl
    have hf : formatWarnings (validate today r) = formatWarnings r :=
      formatWarnings_congr _ _ rfl rfl rfl rfl
    have hn : ∀ M E, nextStepsFor (validate today r) M E = nextStepsFor r M E :=
      fun M E => nextStepsFor_congr _ _ M E rfl rfl rfl rfl
    have hauth : (validate today r).authorization = r.authorization := rfl
    rw [validate_unfold today (validate today r), hc, hb, hf, hn, hauth,
      validate_call_outcome_eq, updateCallOutcome_idem]
    rfl

/-- C6: PEER_TO_PEER_REQUIRED with no representative phone always yields the
callback-number validation error. -/
theorem p2p_missing_phone_error (today : Date) (r : PriorAuthRecord)
    (hs : r.authorization.status = .PEER_TO_PEER_REQUIRED)
    (hp : r.representative.phone = none) :
    "Peer-to-peer required but no callback number captured" ∈
      (validate today r).validation_errors := by
  rw [validate_errors_eq]
  apply List.mem_append_right
  simp [businessFindings, hs, hp, truthyS, List.mem_append]

theorem p2p_missing_phone_error_witness :
    "Peer-to-peer required but no callback number captured" ∈
      (validate d0 c6Rec).validation_errors :=
  p2p_missing_phone_error d0 c6Rec rfl rfl

theorem validated_outcome_partial_failed_witness :
    (validate d0 c2wRec).call_outcome = CallOutcome.PARTIAL := by
  have h := validated_outcome_partial_failed d0 c2wRec (by decide)
  exact h.1 (by decide) (by decide)

/-- `from_dict` undoes `to_dict` on well-formed records. -/
theorem from_dict_to_dict (r : PriorAuthRecord) (h : r.wellFormedDates) :
    PriorAuthRecord.from_dict r.to_dict = some r := by
  obtain ⟨cid, cdate, ic, pat, prov, proc, auth, rep, docu, tl, co, ct, ee, mf, ve, vw,
    ns, ca, ua⟩ := r
  simp only [PriorAuthRecord.wellFormedDates] at h
  obtain ⟨h1, h2, h3, h4, h5, h6, h7, h8, h9, h10⟩ := h
  simp [PriorAuthRecord.to_dict, PriorAuthRecord.from_dict, fromDictHead, fromDictMid,
    fromDictTail, keysAllowed, recordKeys, dictGet, asStr, parseEntitiesField,
    parseDateTimeField_rt _ h1, parseDateTimeField_rt _ h2, parseDateTimeField_rt _ h3,
    parsePatientInfo_rt _ h4, parseProviderInfo_rt, parseProcedureInfo_rt _ h5,
    parseAuthorizationInfo_rt _ h6 h7, parseRepresentativeInfo_rt,
    parseDocumentationRequirements_rt _ h8, parseTimelineInfo_rt _ h9 h10,
    fromValue_value_outcome, parseStrListField_rt]

/-! ### Storage theorems -/

/-- C7: saving (with the source's default `overwrite=True`) and loading back
from the returned location reproduces the record field-for-field except
`updated_at`, which `save_record` stamps with the save time. -/
theorem save_then_load_roundtrip (fs : FileSys) (dir : String) (now : DateTime)
    (r : PriorAuthRecord) (h : r.wellFormedDates) (hn : now.valid) :
    load_record (save_record fs dir now r true).1 (save_record fs dir now r true).2 =
      some { r with updated_at := now } := by
  obtain ⟨h1, h2, h3, h4, h5, h6, h7, h8, h9, h10⟩ := h
  simp [save_record, load_record, fsSet, dictGet]
  exact from_dict_to_dict _ ⟨h1, h2, hn, h4, h5, h6, h7, h8, h9, h10⟩

theorem save_then_load_roundtrip_witness :
    load_record (save_record [] "prior_auth_records" dt0 c7Rec true).1
      (save_record [] "prior_auth_records" dt0 c7Rec true).2 =
      some { c7Rec with updated_at := dt0 } :=
  save_then_load_roundtrip [] "prior_auth_records" dt0 c7Rec (by decide) (by decide)

theorem pyStrLtList_asymm : ∀ a b : List Char,
    pyStrLtList a b = true → pyStrLtList b a = false := by
  intro a
  induction a with
  | nil =>
    intro b h
    cases b with
    | nil => simp [pyStrLtList] at h
    | cons y ys => simp [pyStrLtList]
  | cons x xs ih =>
    intro b h
    cases b with
    | nil => simp [pyStrLtList] at h
    | cons y ys =>
      simp only [pyStrLtList] at h ⊢
      by_cases h1 : x.toNat < y.toNat
      · have h2 : ¬ y.toNat < x.toNat := Nat.lt_asymm h1
        simp [h1, h2]
      · by_cases h2 : y.toNat < x.toNat
        · simp [h1, h2] at h
        · rw [if_neg h1, if_neg h2] at h
          rw [if_neg h2, if_neg h1]
          exact ih ys h

theorem pyStrLt_asymm (a b : String) (h : pyStrLt a b = true) : pyStrLt b a = false :=
  pyStrLtList_asymm _ _ h

theorem chain_insertDesc (x : String) (l : List String)
    (h : List.Chain' descStr l) : List.Chain' descStr (insertDesc x l) := by
  induction l with
  | nil => simp [insertDesc]
  | cons y ys ih =>
    rw [insertDesc]
    by_cases hyx : pyStrLt y x = true
    · simp only [hyx, if_true]
      rw [List.chain'_cons]
      exact ⟨pyStrLt_asymm _ _ hyx, h⟩
    · have hyx' : pyStrLt y x = false := by simpa using hyx
      simp only [hyx', Bool.false_eq_true, if_false]
      have hys : List.Chain' descStr ys := h.tail
      have hrec := ih hys
      cases ys with
      | nil =>
        rw [insertDesc, List.chain'_cons]
        exact ⟨hyx', List.chain'_singleton x⟩
      | cons z zs =>
        rw [List.chain'_cons] at h
        by_cases hzx : pyStrLt z x = true
        · rw [insertDesc] at hrec ⊢
          simp only [hzx, if_true] at hrec ⊢
          rw [List.chain'_cons]
          exact ⟨hyx', hrec⟩
        · have hzx' : pyStrLt z x = false := by simpa using hzx
          rw [insertDesc] at hrec ⊢
          simp only [hzx', Bool.false_eq_true, if_false] at hrec ⊢
          rw [List.chain'_cons]
          exact ⟨h.1, hrec⟩

theorem sortDesc_chain (l : List String) : List.Chain' descStr (sortDesc l) := by
  induction l with
  | nil => simp [sortDesc]
  | cons x xs ih => exact chain_insertDesc x _ ih

/-- C8 (amended): `list_records` returns the matching locations sorted in
descending lexicographic order of their full path strings (so bucket names,
which precede the filename in the path, dominate the embedded timestamps
across buckets). -/
theorem list_records_sorted_desc (dir : String) (st : BucketStore)
    (status : Option AuthorizationStatus) (outcome : Option CallOutcome)
    (sd ed : Option Date) :
    List.Chain' descStr (list_records dir st status outcome sd ed) := by
  unfold list_records
  apply sortDesc_chain

/-- C8 as frozen is false: with records in two buckets the listing starts
with the pending-bucket file whose embedded save timestamp is older. -/
theorem list_records_timestamp_counterexample :
    list_records "prior_auth_records" c8Store none none none none =
      ["prior_auth_records/pending/20250101_000000_a.json",
       "prior_auth_records/approved/20250102_000000_b.json"] ∧
    embeddedStamp "prior_auth_records/pending/20250101_000000_a.json" =
      some ⟨2025, 1, 1⟩ ∧
    embeddedStamp "prior_auth_records/approved/20250102_000000_b.json" =
      some ⟨2025, 1, 2⟩ ∧
    Date.lt ⟨2025, 1, 1⟩ ⟨2025, 1, 2⟩ = true := by
  refine ⟨by decide, by decide, by decide, by decide⟩

/-- C10: the outcome filter of `list_records` is never read, so any outcome
argument produces exactly the result of passing none. -/
theorem list_records_ignores_outcome (dir : String) (st : BucketStore)
    (status : Option AuthorizationStatus) (outcome : Option CallOutcome)
    (sd ed : Option Date) :
    list_records dir st status outcome sd ed =
      list_records dir st status none sd ed := rfl

/-! ### Extractor theorems -/

/-- C4: entity extraction answers `.ok` for every completion behaviour and
every `json.loads` behaviour, and a raised completion call is routed to the
deterministic fallback (itself a total function). -/
theorem extractor_total (invoke : Except PyErr String) (loads : String → Option Json)
    (conversation : String) :
    (∃ d, extractEntitiesWithLLM invoke loads conversation = Except.ok d) ∧
    (∀ e : PyErr, extractEntitiesWithLLM (Except.error e) loads conversation =
      Except.ok (Json.obj (fallbackExtraction conversation))) ∧
    (extractEntitiesWithLLM (Except.ok "") loads conversation =
      Except.ok (Json.obj (fallbackExtraction conversation))) := by
  refine ⟨?_, fun e => rfl, rfl⟩
  cases h : extractTryBlock invoke loads conversation with
  | ok d => exact ⟨d, by simp [extractEntitiesWithLLM, h]⟩
  | error e =>
    exact ⟨Json.obj (fallbackExtraction conversation),
      by simp [extractEntitiesWithLLM, h]⟩

/-- C5 fails on the code: a present-but-null authorization status raises
`AttributeError` out of the record builder (the prompt explicitly asks the
model to use null for missing fields), while an absent key takes the
`'unknown'` default and maps to UNKNOWN. -/
theorem status_lower_raises_on_null :
    extract_authorization_info [("authorization_status", Json.null)] =
      Except.error PyErr.attributeError ∧
    extract_authorization_info [] =
      Except.ok { status := AuthorizationStatus.UNKNOWN } :=
  ⟨rfl, rfl⟩

/-- C9: with the same caller-supplied config, any two entity maps give
records with identical patient, provider and procedure sub-structures. -/
theorem build_subrecords_config_only (today : Date) (now : DateTime) (call_id : String)
    (transcript : List String) (e1 e2 : Dict) (cfg : Option Dict)
    (r1 r2 : PriorAuthRecord)
    (hb1 : build_prior_auth_record today now call_id transcript e1 cfg = .ok r1)
    (hb2 : build_prior_auth_record today now call_id transcript e2 cfg = .ok r2) :
    r1.patient = r2.patient ∧ r1.provider = r2.provider ∧
      r1.procedure = r2.procedure := by
  unfold build_prior_auth_record at hb1 hb2
  cases ha1 : extract_authorization_info e1 with
  | error err => simp [ha1] at hb1
  | ok auth1 =>
    cases ha2 : extract_authorization_info e2 with
    | error err => simp [ha2] at hb2
    | ok auth2 =>
      simp only [ha1, Except.ok.injEq] at hb1
      simp only [ha2, Except.ok.injEq] at hb2
      subst hb1
      subst hb2
      exact ⟨rfl, rfl, rfl⟩

theorem build_subrecords_config_only_witness :
    c9Rec1.patient = c9Rec2.patient ∧ c9Rec1.provider = c9Rec2.provider ∧
      c9Rec1.procedure = c9Rec2.procedure :=
  build_subrecords_config_only d0 dt0 "CALL-C9" ["t"] c9Entities1 c9Entities2 c9Config
    c9Rec1 c9Rec2 rfl rfl

end RCM
